import Mathlib

/-!
Verification of the TikTok video metadata extractor
(src/video_metadata_extractor.py) against its specification.

The Python source is shallowly embedded: pure helpers become Lean
functions over lists of characters and naturals, the file system becomes
an explicit map from paths to documents, and browser interaction is
abstracted by environments that supply the outcome of every external
call (liveness probes, navigation, script evaluation, regex match
lists).  Counts are modelled by Nat: every count reaching a record is
obtained from a digit-run regex match or from parse_count on the
program's number tokens, hence non-negative, and Python integers do not
overflow.
-/

namespace TikTok

/- ### Python truthiness helpers -/

/-- Truthiness of an optional string (Python: None and "" are falsy). -/
def truthyStr : Option String → Bool
  | none => false
  | some s => s ≠ ""

/-- Truthiness of an optional count (Python: None and 0 are falsy). -/
def truthyNat : Option Nat → Bool
  | none => false
  | some n => n ≠ 0

/-- Python x or y on optional counts: the first operand when truthy,
otherwise the second operand unchanged. -/
def pyOr (a b : Option Nat) : Option Nat :=
  if truthyNat a then a else b

/- ### Character and string helpers -/

/-- The character class [0-9] (ASCII digits, code points 48-57),
exactly the characters Python float() accepts in a plain numeral's
digit runs. -/
def digitChar (c : Char) : Bool :=
  48 ≤ c.toNat && c.toNat ≤ 57

/-- The character class of the regex [A-Za-z0-9_]:
uppercase letters (65-90), lowercase letters (97-122),
digits (48-57) or the underscore (95). -/
def wordChar (c : Char) : Bool :=
  (65 ≤ c.toNat && c.toNat ≤ 90) || (97 ≤ c.toNat && c.toNat ≤ 122) ||
    (48 ≤ c.toNat && c.toNat ≤ 57) || c.toNat == 95

/-- Python str.lower restricted to ASCII, which is all the program ever
lowercases (regex word characters and exception messages). -/
def lowerString (s : String) : String :=
  String.mk (s.data.map Char.toLower)

/-- Whether pat occurs at the start of the second list. -/
def startsWithL : List Char → List Char → Bool
  | [], _ => true
  | _ :: _, [] => false
  | a :: as, b :: bs => a == b && startsWithL as bs

/-- Whether pat occurs as a contiguous run inside the list
(Python: pat in s). -/
def hasSubstrL (pat : List Char) : List Char → Bool
  | [] => startsWithL pat []
  | c :: rest => startsWithL pat (c :: rest) || hasSubstrL pat rest

/-- Python keyword in msg on strings. -/
def strHasSub (hay pat : String) : Bool :=
  hasSubstrL pat.data hay.data

/-- Python any(keyword in error_msg for keyword in ks). -/
def anyKeyword (msg : String) (ks : List String) : Bool :=
  ks.any (fun k => strHasSub msg k)

/-- Python str.strip: whitespace removed from both ends. -/
def stripChars (l : List Char) : List Char :=
  ((l.dropWhile Char.isWhitespace).reverse.dropWhile Char.isWhitespace).reverse

/-- Python str.replace on character lists, for a non-empty pattern
(the program only replaces '.json'): each non-overlapping occurrence is
replaced left to right.  The counter argument skips the remaining
characters of an occurrence just replaced. -/
def replaceGo (pat rep : List Char) : List Char → Nat → List Char
  | [], _ => []
  | _ :: rest, skip + 1 => replaceGo pat rep rest skip
  | c :: rest, 0 =>
    if startsWithL pat (c :: rest) then
      rep ++ replaceGo pat rep rest (pat.length - 1)
    else c :: replaceGo pat rep rest 0

/-- Python s.replace(pat, rep). -/
def pyReplace (s pat rep : String) : String :=
  String.mk (replaceGo pat.data rep.data s.data 0)

/-- Code-point lexicographic order on character lists, the order
Python sorted() uses on strings. -/
def lexLe : List Char → List Char → Bool
  | [], _ => true
  | _ :: _, [] => false
  | a :: as, b :: bs =>
    a.toNat < b.toNat || (a.toNat == b.toNat && lexLe as bs)

/-- sorted()'s comparison on hashtag strings. -/
def hashtagLe (a b : String) : Bool := lexLe a.data b.data

/- ### _is_driver_alive (lines 78-87) -/

/-- A driver as seen by the liveness check: None, or a handle whose
current_url probe (line 84) either yields a URL or raises an exception
carried as its message.  The except clause at line 86 ends in the
catch-all Exception, so every probe failure is caught. -/
def is_driver_alive : Option (Except String String) → Bool
  | none => false
  | some (Except.ok _) => true
  | some (Except.error _) => false

/- ### _create_driver (lines 89-204) -/

/-- Outcome of one creation attempt: the uc.Chrome launch plus the
verification probes of lines 119-166 either produce a working driver or
raise, and the exception is caught at line 168 with its message. -/
inductive CreateOutcome where
  | ok
  | err (msg : String)
deriving Repr, DecidableEq

/-- The keyword list of lines 181-186 used to classify creation errors
as recoverable. -/
def creationRecoverableKeywords : List String :=
  ["no such file", "chromedriver", "can not connect",
   "cannot connect", "session not created", "connection refused",
   "service", "chromeoptions", "reuse", "127.0.0.1",
   "chrome not reachable", "not reachable", "unable to connect"]

/-- is_recoverable at lines 181-186: any keyword occurring in
str(e).lower(). -/
def creationRecoverable (msg : String) : Bool :=
  anyKeyword (lowerString msg) creationRecoverableKeywords

/-- The retry loop of _create_driver (lines 119-204).  fuel counts the
iterations of range(max_retries) still to run including the current
one, and i is the current attempt index, so the test
attempt < max_retries - 1 of line 188 is 0 < fuel - 1 and the test
attempt == max_retries - 1 of line 200 is fuel - 1 == 0.  The third
argument is the running last_error, used only when the range is
exhausted (line 204); each iteration that consults it has just set it.
On success the number of attempts consumed is returned.  The backoff
sleeps of lines 189-196 (taken only in the recoverable branch) and the
fresh temporary profile directory made per attempt (line 125) do not
affect the returned value and are not modelled.  Note the control flow
of lines 188-201: a non-recoverable error only raises when
attempt == max_retries - 1; otherwise the for loop silently proceeds
to the next attempt. -/
def create_driver_go (outcomes : Nat → CreateOutcome) :
    Nat → Nat → Option String → Except String Nat
  | 0, _, last_error =>
    match last_error with
    | some e => Except.error e
    | none => Except.error "Failed to create driver after retries"
  | fuel + 1, i, _ =>
    match outcomes i with
    | CreateOutcome.ok => Except.ok (i + 1)
    | CreateOutcome.err msg =>
      if creationRecoverable msg && decide (0 < fuel) then
        create_driver_go outcomes fuel (i + 1) (some msg)
      else if fuel == 0 then Except.error msg
      else create_driver_go outcomes fuel (i + 1) (some msg)

/-- _create_driver: run the retry loop from attempt 0 with no
last_error (default max_retries = 3, line 89). -/
def create_driver (outcomes : Nat → CreateOutcome) (max_retries : Nat := 3) :
    Except String Nat :=
  create_driver_go outcomes max_retries 0 none

/- ### parse_count (lines 888-901) -/

/-- Digit run to value, most significant first. -/
def natOfDigits (l : List Char) : Nat :=
  l.foldl (fun acc c => acc * 10 + (c.toNat - 48)) 0

/-- Python float() on the plain decimal numerals the program's number
regex produces: an optional digit run, an optional dot followed by an
optional digit run, with at least one digit in total.  The value is
returned as (numerator, number of fractional digits), i.e. the exact
rational numerator / 10 ^ k.  Exotic float() forms (signs, exponents,
inf/nan, underscores) never reach parse_count from the program's
tokeniser and are treated as unparseable. -/
def parseDecimal (l : List Char) : Option (Nat × Nat) :=
  let ip := l.takeWhile digitChar
  match l.dropWhile digitChar with
  | [] => if ip.isEmpty then none else some (natOfDigits ip, 0)
  | '.' :: fp =>
    if fp.all digitChar && !(ip.isEmpty && fp.isEmpty) then
      some (natOfDigits ip * 10 ^ fp.length + natOfDigits fp, fp.length)
    else none
  | _ => none

/-- Largest k ≤ fuel with b * 2 ^ k ≤ a2 (0 when none is), by downward
scan; the predicate is monotone in k, so the first hit is the largest. -/
def maxPow (a2 b : Nat) : Nat → Nat
  | 0 => 0
  | k+1 => if b * 2 ^ (k+1) ≤ a2 then k+1 else maxPow a2 b k

/-- floor (log2 (a / b)) for a positive rational, valid whenever
2 ^ (-bound) ≤ a / b < 2 ^ bound: the largest e with 2 ^ e ≤ a / b,
found as the largest k ≤ 2 * bound with b * 2 ^ k ≤ a * 2 ^ bound,
shifted back by bound. -/
def floorLog2 (a b bound : Nat) : Int :=
  (maxPow (a * 2 ^ bound) b (2 * bound) : Int) - bound

/-- Round the positive rational a / b to 53 significant bits with the
IEEE round-half-to-even rule, given E = floor (log2 (a / b)): the
scaled mantissa (a / b) * 2 ^ (52 - E) lies in [2^52, 2^53) and is
rounded to a nearest integer, carrying into the next binade when it
rounds up to 2^53.  The value of the result (m, e) is m * 2 ^ e. -/
def roundMantissa (a b : Nat) (E : Int) : Nat × Int :=
  let sh : Int := 52 - E
  let num := if 0 ≤ sh then a * 2 ^ sh.toNat else a
  let den := if 0 ≤ sh then b else b * 2 ^ ((-sh).toNat)
  let m0 := num / den
  let r := num % den
  let m := if den < 2 * r then m0 + 1
           else if 2 * r < den then m0
           else if m0 % 2 = 0 then m0 else m0 + 1
  if m = 2 ^ 53 then (2 ^ 52, E - 51) else (m, E - 52)

/-- The correctly rounded binary64 value of the positive rational
a / b, as mantissa * 2 ^ exponent; bound must satisfy
2 ^ (-bound) ≤ a / b < 2 ^ bound. -/
def roundFloat (a b bound : Nat) : Nat × Int :=
  roundMantissa a b (floorLog2 a b bound)

/-- Python float() on the parsed numeral n / 10 ^ f, where L bounds the
digit count (n < 10 ^ L): the correctly rounded double, or none when it
overflows to inf (mantissa * 2 ^ e ≥ 2 ^ 1024, i.e. e ≥ 972; int(inf)
then raises, caught by parse_count's bare except).  Values below the
normal range are rounded at 53 bits rather than on the denormal grid:
such a value stays below 1 after any of the multipliers, so no int()
result can tell the difference. -/
def pyFloatOfDec (n f L : Nat) : Option (Nat × Int) :=
  if n = 0 then some (0, 0)
  else
    let r := roundFloat n (10 ^ f) (4 * (L + f) + 8)
    if 972 ≤ r.2 then none else some r

/-- Python float() on a character list: parse the decimal numeral, then
round to binary64. -/
def pyFloatDec (l : List Char) : Option (Nat × Int) :=
  (parseDecimal l).bind (fun p => pyFloatOfDec p.1 p.2 l.length)

/-- The double multiply float * multiplier (the int multiplier converts
to double exactly): the exact product of the dyadic value with mult,
rounded back to 53 bits, or none on overflow to inf. -/
def pyMulRound (x : Nat × Int) (mult : Nat) : Option (Nat × Int) :=
  if x.1 = 0 then some (0, 0)
  else
    let bound := 90 + x.2.natAbs
    let r := if 0 ≤ x.2
             then roundFloat (x.1 * mult * 2 ^ x.2.toNat) 1 bound
             else roundFloat (x.1 * mult) (2 ^ ((-x.2).toNat)) bound
    if 972 ≤ r.2 then none else some r

/-- int() on a nonnegative double m * 2 ^ e: truncation toward zero,
which is the floor here. -/
def pyTrunc (x : Nat × Int) : Nat :=
  if 0 ≤ x.2 then x.1 * 2 ^ x.2.toNat else x.1 / 2 ^ ((-x.2).toNat)

/-- parse_count: uppercase and strip, test for the letters K, M, B
anywhere in that order, delete every occurrence of the found letter,
convert the whole remainder with float() (correctly rounded binary64),
multiply by the int multiplier in double arithmetic, and truncate as
int() does.  Any failure — an unparseable remainder, or overflow to
inf — is caught by the bare except and yields None.  Exotic float()
literal forms (signs, exponents, inf/nan, underscores) never reach
parse_count from the program's tokeniser and are treated as
unparseable. -/
def parse_count (count_str : String) : Option Nat :=
  let s := stripChars (count_str.data.map Char.toUpper)
  if s.contains 'K' then
    (pyFloatDec (s.filter (fun c => c != 'K'))).bind
      (fun x => (pyMulRound x 1000).map pyTrunc)
  else if s.contains 'M' then
    (pyFloatDec (s.filter (fun c => c != 'M'))).bind
      (fun x => (pyMulRound x 1000000).map pyTrunc)
  else if s.contains 'B' then
    (pyFloatDec (s.filter (fun c => c != 'B'))).bind
      (fun x => (pyMulRound x 1000000000).map pyTrunc)
  else
    (pyFloatDec s).map pyTrunc

/- ### The Record data model (the metadata dict of extract_metadata) -/

/-- One per-URL extraction result. -/
structure Record where
  url : String
  title : Option String := none
  description : Option String := none
  username : Option String := none
  like_count : Option Nat := none
  comment_count : Option Nat := none
  share_count : Option Nat := none
  view_count : Option Nat := none
  archive_count : Option Nat := none
  hashtags : List String := []
  error : Option String := none
deriving Repr, DecidableEq

/-- The all-null record with an error message, as built at lines
231-243, 344-356 and 860-872. -/
def errorRecord (url msg : String) : Record :=
  { url := url, error := some msg }

/- ### save_results (lines 1022-1078) and the file-system model -/

/-- tag.lstrip('#').lower() at line 1047. -/
def cleanTag (t : String) : String :=
  String.mk ((t.data.dropWhile (fun c => c == '#')).map Char.toLower)

/-- The duplicate-dropping normalisation loop of lines 1042-1051;
the second argument is the seen set. -/
def cleanHashtagsGo : List String → List String → List String
  | [], _ => []
  | t :: rest, seen =>
    let c := cleanTag t
    if c ≠ "" ∧ c ∉ seen then c :: cleanHashtagsGo rest (c :: seen)
    else cleanHashtagsGo rest seen

/-- Per-record normalisation of lines 1030-1053.  The archive_count
int() coercion is the identity on the model's Nat counts. -/
def normalizeRecord (v : Record) : Record :=
  { v with hashtags := cleanHashtagsGo v.hashtags [] }

/-- A saved result document.  Optional fields model JSON keys that may
be absent: save_results always writes exactly total_videos,
extracted_at and videos (lines 1055-1059), so the other three keys are
none in everything it persists. -/
structure Doc where
  total_videos : Nat
  extracted_at : Option String
  finalized_at : Option String
  successful_extractions : Option Nat
  failed_extractions : Option Nat
  videos : List Record
deriving Repr, DecidableEq

/-- The file system: a map from paths to the document stored there. -/
abbrev FS := String → Option Doc

/-- Writing a file. -/
def fsWrite (fs : FS) (p : String) (d : Doc) : FS :=
  fun q => if q = p then some d else fs q

/-- Removing a file. -/
def fsRemove (fs : FS) (p : String) : FS :=
  fun q => if q = p then none else fs q

/-- Atomically renaming src over dst (os.replace / os.rename). -/
def fsRename (fs : FS) (src dst : String) : FS :=
  fun q => if q = dst then fs src else if q = src then none else fs q

/-- Lines 1027-1028: the target path, with '.json' replaced by
'_partial.json' for a partial checkpoint. -/
def savePath (output_file : String) (isPartial : Bool) : String :=
  if isPartial then pyReplace output_file ".json" "_partial.json"
  else output_file

/-- Line 1062: the temporary path. -/
def tmpPath (p : String) : String := p ++ ".tmp"

/-- The document save_results serialises (lines 1030-1059). -/
def saveDoc (metadata : List Record) (extracted_at : String) : Doc :=
  let vids := metadata.map normalizeRecord
  ⟨vids.length, some extracted_at, none, none, none, vids⟩

/-- save_results (lines 1022-1078): returns the resulting file system
together with the propagated error (none = returned normally).
write_ok says whether the json.dump write succeeds; extracted_at stands
for time.strftime at line 1057.  os.replace and os.rename have the same
effect on this model, so the os.path.exists branch of lines 1067-1070
collapses.  When the write fails, the partial content left in the
temporary file is irrelevant (the handler at lines 1072-1077 removes
the file and re-raises), so the model writes the same document there
before removing it. -/
def save_results (fs : FS) (metadata : List Record) (output_file : String)
    (isPartial : Bool) (extracted_at : String) (write_ok : Bool) :
    FS × Option String :=
  let file_path := savePath output_file isPartial
  let temp := tmpPath file_path
  let doc := saveDoc metadata extracted_at
  if write_ok then
    (fsRename (fsWrite fs temp doc) temp file_path, none)
  else
    (fsRemove (fsWrite fs temp doc) temp, some "write failed")

/-- The file system left by a crash after the temporary file is fully
written (line 1065) but before the rename of lines 1067-1070 runs. -/
def save_results_crashed (fs : FS) (metadata : List Record)
    (output_file : String) (isPartial : Bool) (extracted_at : String) : FS :=
  fsWrite fs (tmpPath (savePath output_file isPartial))
    (saveDoc metadata extracted_at)

/- ### Hashtag extraction (lines 262-267, 806-808, 903-912) -/

/-- The matches of re.findall('#([A-Za-z0-9_]+)', text): a left-to-right
scan; at a '#' followed by at least one word character the maximal
word-character run is captured and scanning resumes right after it. -/
def scanTags : List Char → List (List Char)
  | [] => []
  | '#' :: rest =>
    let run := rest.takeWhile wordChar
    if run.isEmpty then scanTags rest
    else run :: scanTags (rest.drop run.length)
  | _ :: rest => scanTags rest
  termination_by l => l.length
  decreasing_by
  all_goals simp only [List.length_cons, List.length_drop]
  all_goals omega

/-- _extract_hashtags_from_text (lines 903-912): falsy text gives [],
otherwise each match is lowercased (strip() of a word-character run is
the identity and a match is never empty, so the guard of line 910
always holds) and collected into a set, modelled as a first-occurrence
dedup. -/
def extract_hashtags_from_text (text : Option String) : List String :=
  match text with
  | none => []
  | some t =>
    if t = "" then []
    else ((scanTags t.data).map (fun r => String.mk (r.map Char.toLower))).dedup

/-- The hashtags_found set accumulated over every text fed to
_add_hashtags_from_text, written out as sorted(hashtags_found)
(lines 262-267 and 808): the union is the dedup of the concatenation,
then sorted lexicographically. -/
def collectTags (texts : List (Option String)) : List String :=
  ((texts.flatMap extract_hashtags_from_text).dedup).mergeSort hashtagLe

/- ### The extract_metadata environment -/

/-- Universal-data tier: the findall results over
json.dumps(js_data['universal_data']) (lines 420-469).  Each digit-run
match is carried as its numeric value; collect is the concatenation
over the six collect patterns of lines 442-449. -/
structure UniversalMatches where
  digg : List Nat := []
  comment : List Nat := []
  share : List Nat := []
  play : List Nat := []
  collect : List Nat := []
  uniqueIds : List String := []
  texts : List String := []
deriving Repr, DecidableEq

/-- The dict returned by the JavaScript probe (lines 373-402); None for
the whole structure models the script raising (caught at line 471).
metaTags is the property-to-content mapping; universal is None when
window.__UNIVERSAL_DATA_FOR_REHYDRATION__ was absent or falsy. -/
structure JsData where
  metaTags : List (String × String) := []
  pageText : Option String := none
  universal : Option UniversalMatches := none
deriving Repr, DecidableEq

/-- A dict located by find_in_dict in the parsed page JSON, with the
.get results used at lines 602-626. -/
structure VideoDataDict where
  diggCount : Option Nat := none
  likeCount : Option Nat := none
  commentCount : Option Nat := none
  shareCount : Option Nat := none
  playCount : Option Nat := none
  viewCount : Option Nat := none
  collectCount : Option Nat := none
  collectionCount : Option Nat := none
  savedCount : Option Nat := none
  bookmarkCount : Option Nat := none
  favoriteCount : Option Nat := none
deriving Repr, DecidableEq

/-- The structured tier of lines 575-642; the whole value is None when
the __UNIVERSAL_DATA_FOR_REHYDRATION__ script regex did not match or
json.loads failed (both excepts pass).  videoData is
find_in_dict(data,'videoData') or ('itemInfo') or ('stats') when that
value is a truthy dict; stats likewise for line 618; collectRecursive
lists, in the order of the five field names of line 630, the value
find_in_dict returns for each. -/
structure JsonTierEnv where
  videoData : Option VideoDataDict := none
  stats : Option VideoDataDict := none
  collectRecursive : List (Option Nat) := []
deriving Repr, DecidableEq

/-- page_source as the fallback tiers see it (lines 571-689): the
structured tier and the digit-run findall results per pattern, plus the
og:description fallback match of line 559. -/
structure PageSourceData where
  jsonParsed : Option JsonTierEnv := none
  digg : List Nat := []
  like : List Nat := []
  comment : List Nat := []
  share : List Nat := []
  play : List Nat := []
  view : List Nat := []
  collect : List Nat := []
  ogDescription : Option String := none
deriving Repr, DecidableEq

/-- First number token (regex (\d+(?:\.\d+)?[KMB]?)) found in the text
of the first matching visible element, per metric (lines 692-791); None
when no element or no number was found or the driver died inside the
sub-loop (all those excepts swallow). -/
structure DomNums where
  like : Option String := none
  comment : Option String := none
  share : Option String := none
  view : Option String := none
  collect : Option String := none
deriving Repr, DecidableEq

/-- Outcome of driver.get plus the post-load wait (lines 295-301);
deadAfterLoad is the liveness check at line 300 whose raise is handled
by the WebDriverException clause. -/
inductive NavOutcome where
  | ok (deadAfterLoad : Bool)
  | webErr (msg : String)
  | otherErr (msg : String)
deriving Repr, DecidableEq

/-- Environment of one iteration of the navigation retry loop
(lines 270-340). -/
structure Attempt where
  alive : Bool := true
  recreate : CreateOutcome := CreateOutcome.ok
  nav : NavOutcome := NavOutcome.ok false
  recreateAfterErr : CreateOutcome := CreateOutcome.ok
deriving Repr, DecidableEq

/-- The keyword list of lines 311-318 classifying navigation errors. -/
def extractRecoverableKeywords : List String :=
  ["target window already closed", "no such window", "web view not found",
   "session", "connection", "service"]

/-- is_recoverable at lines 311-318 over str(e).lower(). -/
def extractRecoverable (msg : String) : Bool :=
  anyKeyword (lowerString msg) extractRecoverableKeywords

/-- Lines 306-336: handling of an InvalidSessionId/WebDriverException
raised during navigation; more says whether another loop iteration
remains (retry_attempt < max_retries - 1).  Sum.inl means the loop body
ends and the next iteration runs with the given last_error; Sum.inr
means the loop breaks and lines 343-360 see the given last_error. -/
def navWebErr (a : Attempt) (more : Bool) (msg : String) :
    Option String ⊕ Option String :=
  if extractRecoverable msg && more then
    match a.recreateAfterErr with
    | CreateOutcome.ok => Sum.inl (some msg)
    | CreateOutcome.err e =>
      Sum.inr (some ("Driver recreation failed: " ++ e))
  else Sum.inr (some msg)

/-- Lines 295-340: driver.get and its except clauses.
On success the loop body simply ends (there is no break), carrying
last_error unchanged into the next iteration. -/
def attemptNav (a : Attempt) (more : Bool) (le : Option String) :
    Option String ⊕ Option String :=
  match a.nav with
  | NavOutcome.ok dead =>
    if dead then navWebErr a more "Driver died after page load"
    else Sum.inl le
  | NavOutcome.webErr msg => navWebErr a more msg
  | NavOutcome.otherErr msg => Sum.inr (some msg)

/-- The navigation retry loop of lines 268-340 in the thread-local mode
(use_local_driver = True, the mode every worker uses): returns the
final last_error; none means extraction may proceed (lines 362 on).
fuel counts the iterations of range(max_retries) still to run including
the current one and i is the current retry_attempt, so
retry_attempt < max_retries - 1 is 0 < fuel - 1.  Nothing ever clears
last_error, and success does not leave the loop, so the loop runs all
max_retries iterations unless it breaks. -/
def extract_loop (att : Nat → Attempt) :
    Nat → Nat → Option String → Option String
  | 0, _, le => le
  | fuel + 1, i, le =>
    let a := att i
    let more := decide (0 < fuel)
    if a.alive then
      match attemptNav a more le with
      | Sum.inl le2 => extract_loop att fuel (i + 1) le2
      | Sum.inr final => final
    else
      match a.recreate with
      | CreateOutcome.ok =>
        match attemptNav a more le with
        | Sum.inl le2 => extract_loop att fuel (i + 1) le2
        | Sum.inr final => final
      | CreateOutcome.err e =>
        if 0 < fuel then
          extract_loop att fuel (i + 1)
            (some ("Driver recreation failed: " ++ e))
        else some ("Driver recreation failed: " ++ e)

/- ### The extraction body (lines 362-815) -/

/-- The mutable metadata dict during the body, together with the
hashtag source texts in the order they are fed to
_add_hashtags_from_text. -/
structure MState where
  title : Option String := none
  description : Option String := none
  username : Option String := none
  like_count : Option Nat := none
  comment_count : Option Nat := none
  share_count : Option Nat := none
  view_count : Option Nat := none
  archive_count : Option Nat := none
  texts : List (Option String) := []

/-- int(min(matches, key=int)) on the digit-run matches: None when the
list is empty (no assignment happens then). -/
def pyMin : List Nat → Option Nat
  | [] => none
  | x :: xs => some (xs.foldl Nat.min x)

/-- int(max(matches, key=int)) likewise. -/
def pyMax : List Nat → Option Nat
  | [] => none
  | x :: xs => some (xs.foldl Nat.max x)

/-- max(strings, key=len): Python keeps the first string of maximal
length. -/
def pyMaxByLen : List String → Option String
  | [] => none
  | x :: xs =>
    some (xs.foldl (fun acc s => if s.length > acc.length then s else acc) x)

/-- Python s[:n]. -/
def pyTake (s : String) (n : Nat) : String := String.mk (s.data.take n)

/-- Python s.strip(). -/
def pyStrip (s : String) : String := String.mk (stripChars s.data)

/-- description.split(chr(10))[0]: the characters before the first
newline (the split list is never empty). -/
def firstLine (s : String) : String :=
  String.mk (s.data.takeWhile (fun c => c != '\n'))

/-- dict.get on the meta-tag mapping. -/
def lookupMeta (m : List (String × String)) (k : String) : Option String :=
  (m.find? (fun p => p.1 == k)).map Prod.snd

/-- Lines 405-414: og:title and og:description from the meta tags (the
empty dict is falsy), with the unconditional hashtag feeds. -/
def jsMetaStep (j : JsData) (s : MState) : MState :=
  if j.metaTags ≠ [] then
    let title_val := lookupMeta j.metaTags "og:title"
    let s1 :=
      if ¬ truthyStr s.title ∧ truthyStr title_val then
        { s with title := title_val }
      else s
    let s2 := { s1 with texts := s1.texts ++ [title_val] }
    let desc_val := lookupMeta j.metaTags "og:description"
    let s3 :=
      if ¬ truthyStr s2.description ∧ truthyStr desc_val then
        { s2 with description := desc_val }
      else s2
    { s3 with texts := s3.texts ++ [desc_val] }
  else s

/-- Lines 415-417: the page text hashtag feed. -/
def jsPageTextStep (j : JsData) (s : MState) : MState :=
  match j.pageText with
  | some t => if t ≠ "" then { s with texts := s.texts ++ [some t] } else s
  | none => s

/-- Lines 425-427: like_count from the minimum diggCount match. -/
def uStepLike (u : UniversalMatches) (s : MState) : MState :=
  match pyMin u.digg with
  | some v => { s with like_count := some v }
  | none => s

/-- Lines 429-431: comment_count from the maximum commentCount match. -/
def uStepComment (u : UniversalMatches) (s : MState) : MState :=
  match pyMax u.comment with
  | some v => { s with comment_count := some v }
  | none => s

/-- Lines 433-435: share_count from the maximum shareCount match. -/
def uStepShare (u : UniversalMatches) (s : MState) : MState :=
  match pyMax u.share with
  | some v => { s with share_count := some v }
  | none => s

/-- Lines 437-439: view_count from the maximum playCount match. -/
def uStepView (u : UniversalMatches) (s : MState) : MState :=
  match pyMax u.play with
  | some v => { s with view_count := some v }
  | none => s

/-- Lines 441-456: archive_count from the maximum over the collect
pattern matches. -/
def uStepCollect (u : UniversalMatches) (s : MState) : MState :=
  match pyMax u.collect with
  | some v => { s with archive_count := some v }
  | none => s

/-- Lines 458-461: username from the first uniqueId match. -/
def uStepUser (u : UniversalMatches) (s : MState) : MState :=
  match u.uniqueIds with
  | [] => s
  | uid :: _ => { s with username := some uid }

/-- Lines 463-469: description from the longest text match (when still
unset), truncated into the title, and fed to the hashtag set. -/
def uStepDesc (u : UniversalMatches) (s : MState) : MState :=
  match u.texts with
  | [] => s
  | _ :: _ =>
    if ¬ truthyStr s.description then
      match pyMaxByLen u.texts with
      | some d =>
        { s with description := some d, title := some (pyTake d 100),
                 texts := s.texts ++ [some d] }
      | none => s
    else s

/-- Lines 420-469: the universal-data tier, assignments in source
order.  like takes the minimum of the diggCount matches; comment,
share, view and archive take maxima; username takes the first uniqueId
match; the description falls back to the longest text match. -/
def jsUniversalStep (j : JsData) (s : MState) : MState :=
  match j.universal with
  | none => s
  | some u =>
    uStepDesc u (uStepUser u (uStepCollect u (uStepView u
      (uStepShare u (uStepComment u (uStepLike u s))))))

/-- Lines 404-469 as one step; None models the execute_script raise
caught at line 471, which skips the whole JavaScript block. -/
def jsSection (js : Option JsData) (s : MState) : MState :=
  match js with
  | none => s
  | some j => jsUniversalStep j (jsPageTextStep j (jsMetaStep j s))

/-- re.search('@([^/]+)', url): the first '@' followed by at least one
non-slash character wins; the capture is the maximal non-slash run. -/
def urlAtMatch : List Char → Option (List Char)
  | [] => none
  | '@' :: rest =>
    let cap := rest.takeWhile (fun c => c != '/')
    if cap.isEmpty then urlAtMatch rest else some cap
  | _ :: rest => urlAtMatch rest

/-- Lines 474-517: username from the URL (unconditional overwrite when
the regex matches), then from the DOM selectors only when still
falsy. -/
def usernameStep (url : String) (domUsername : Option String) (s : MState) :
    MState :=
  let s1 := match urlAtMatch url.data with
    | some cap => { s with username := some (String.mk cap) }
    | none => s
  if ¬ truthyStr s1.username then
    match domUsername with
    | some u => { s1 with username := some u }
    | none => s1
  else s1

/-- Lines 519-565: the description selectors (first truthy hit wins and
overwrites unconditionally, setting the title to the stripped first
line), then the page-source og:description fallback guarded by the
falsy check and the line 555 liveness check (whose raise is caught at
line 564). -/
def descriptionStep (domDescription : Option String) (descSourceAlive : Bool)
    (ogDesc : Option String) (s : MState) : MState :=
  match domDescription with
  | some d =>
    { s with title := some (pyStrip (firstLine d)),
             description := some (pyStrip d),
             texts := s.texts ++ [some (pyStrip d)] }
  | none =>
    if ¬ truthyStr s.description then
      if descSourceAlive then
        match ogDesc with
        | some md =>
          { s with description := some md, title := some (pyTake md 100),
                   texts := s.texts ++ [some md] }
        | none => s
      else s
    else s

/-- The or-chain over the five collect field names (lines 608-614 and
620-626), with Python 0-is-falsy semantics. -/
def collectChain (v : VideoDataDict) : Option Nat :=
  pyOr v.collectCount
    (pyOr v.collectionCount (pyOr v.savedCount (pyOr v.bookmarkCount v.favoriteCount)))

/-- Lines 629-638: first non-None find_in_dict result over the five
field names (int() of an already numeric value never fails). -/
def firstSome : List (Option Nat) → Option Nat
  | [] => none
  | some v :: _ => some v
  | none :: rest => firstSome rest

/-- Lines 575-642: the structured JSON tier.  When videoData is found,
every metric is assigned unconditionally from the or-chains (possibly
to None); the two archive fallbacks run only while archive_count is
still falsy. -/
def structuredStep (jt : Option JsonTierEnv) (s : MState) : MState :=
  match jt with
  | none => s
  | some j =>
    let s1 := match j.videoData with
      | some vd =>
        { s with like_count := pyOr vd.diggCount vd.likeCount,
                 comment_count := vd.commentCount,
                 share_count := vd.shareCount,
                 view_count := pyOr vd.playCount vd.viewCount,
                 archive_count := collectChain vd }
      | none => s
    let s2 :=
      if ¬ truthyNat s1.archive_count then
        match j.stats with
        | some sd => { s1 with archive_count := collectChain sd }
        | none => s1
      else s1
    if ¬ truthyNat s2.archive_count then
      match firstSome j.collectRecursive with
      | some v => { s2 with archive_count := some v }
      | none => s2
    else s2

/-- Lines 645-649: like_count fallback, minimum over the diggCount and
likeCount matches, only while like_count is falsy. -/
def psLikeStep (ps : PageSourceData) (s : MState) : MState :=
  if ¬ truthyNat s.like_count then
    match pyMin (ps.digg ++ ps.like) with
    | some v => { s with like_count := some v }
    | none => s
  else s

/-- Lines 651-654: comment_count fallback, maximum. -/
def psCommentStep (ps : PageSourceData) (s : MState) : MState :=
  if ¬ truthyNat s.comment_count then
    match pyMax ps.comment with
    | some v => { s with comment_count := some v }
    | none => s
  else s

/-- Lines 656-659: share_count fallback, maximum. -/
def psShareStep (ps : PageSourceData) (s : MState) : MState :=
  if ¬ truthyNat s.share_count then
    match pyMax ps.share with
    | some v => { s with share_count := some v }
    | none => s
  else s

/-- Lines 661-665: view_count fallback, maximum over the playCount and
viewCount matches. -/
def psViewStep (ps : PageSourceData) (s : MState) : MState :=
  if ¬ truthyNat s.view_count then
    match pyMax (ps.play ++ ps.view) with
    | some v => { s with view_count := some v }
    | none => s
  else s

/-- Lines 667-689: archive_count fallback, maximum over the eleven
collect patterns. -/
def psCollectStep (ps : PageSourceData) (s : MState) : MState :=
  if ¬ truthyNat s.archive_count then
    match pyMax ps.collect with
    | some v => { s with archive_count := some v }
    | none => s
  else s

/-- Lines 645-689: the page-source regex fallback tier, each field
guarded by its falsy check, in source order. -/
def psRegexStep (ps : PageSourceData) (s : MState) : MState :=
  psCollectStep ps (psViewStep ps (psShareStep ps
    (psCommentStep ps (psLikeStep ps s))))

/-- Lines 692-706: like_count from the first visible-element number
token, through parse_count (possibly assigning None). -/
def domLikeStep (dom : DomNums) (s : MState) : MState :=
  if ¬ truthyNat s.like_count then
    match dom.like with
    | some tok => { s with like_count := parse_count tok }
    | none => s
  else s

/-- Lines 708-721: comment_count from the visible elements. -/
def domCommentStep (dom : DomNums) (s : MState) : MState :=
  if ¬ truthyNat s.comment_count then
    match dom.comment with
    | some tok => { s with comment_count := parse_count tok }
    | none => s
  else s

/-- Lines 723-736: share_count from the visible elements. -/
def domShareStep (dom : DomNums) (s : MState) : MState :=
  if ¬ truthyNat s.share_count then
    match dom.share with
    | some tok => { s with share_count := parse_count tok }
    | none => s
  else s

/-- Lines 738-751: view_count from the visible elements. -/
def domViewStep (dom : DomNums) (s : MState) : MState :=
  if ¬ truthyNat s.view_count then
    match dom.view with
    | some tok => { s with view_count := parse_count tok }
    | none => s
  else s

/-- Lines 753-791: archive_count from the collect selectors. -/
def domCollectStep (dom : DomNums) (s : MState) : MState :=
  if ¬ truthyNat s.archive_count then
    match dom.collect with
    | some tok => { s with archive_count := parse_count tok }
    | none => s
  else s

/-- Lines 692-791: the visible-element tier, in source order. -/
def domStep (dom : DomNums) (s : MState) : MState :=
  domCollectStep dom (domViewStep dom (domShareStep dom
    (domCommentStep dom (domLikeStep dom s))))

/-- Lines 567-794: the whole metrics section; when the liveness check
of line 569 fails its raise is caught at line 793 and the section does
nothing. -/
def metricsStep (alive : Bool) (ps : PageSourceData) (dom : DomNums)
    (s : MState) : MState :=
  if alive then domStep dom (psRegexStep ps (structuredStep ps.jsonParsed s))
  else s

/-- Lines 806-815: the final description hashtag re-feed, the
sorted-set write and the archive int() coercion (identity on Nat). -/
def finishRecord (url : String) (s : MState) : Record :=
  let texts :=
    if truthyStr s.description then s.texts ++ [s.description] else s.texts
  { url := url, title := s.title, description := s.description,
    username := s.username, like_count := s.like_count,
    comment_count := s.comment_count, share_count := s.share_count,
    view_count := s.view_count, archive_count := s.archive_count,
    hashtags := collectTags texts, error := none }

/-- Environment of the extraction body. -/
structure BodyEnv where
  bodyAlive : Bool := true
  js : Option JsData := none
  domUsername : Option String := none
  domDescription : Option String := none
  descSourceAlive : Bool := true
  metricsAlive : Bool := true
  ps : PageSourceData := {}
  dom : DomNums := {}

/-- The extraction body (lines 362-815).  The only exception that
reaches the handler at line 798 is the liveness raise of lines 365-366
(every inner section catches its own), and at that point all content
fields and the hashtag set are still empty. -/
def extract_body (url : String) (b : BodyEnv) : Record :=
  if b.bodyAlive then
    finishRecord url
      (metricsStep b.metricsAlive b.ps b.dom
        (descriptionStep b.domDescription b.descSourceAlive b.ps.ogDescription
          (usernameStep url b.domUsername
            (jsSection b.js {}))))
  else
    { url := url, hashtags := collectTags [],
      error := some "Driver died during page load" }

/-- Environment for one extract_metadata call in the thread-local mode
(use_local_driver = True, the mode every worker path uses; the
sequential mode differs only in which recreation routine runs at the
recreation call sites). -/
structure ExtractEnv where
  initAlive : Bool := true
  initCreate : CreateOutcome := CreateOutcome.ok
  att : Nat → Attempt := fun _ => {}
  body : BodyEnv := {}

/-- Lines 268-360 followed by the body: run the retry loop; a final
last_error yields the all-null error record of lines 344-356. -/
def extract_metadata_run (url : String) (env : ExtractEnv)
    (max_retries : Nat) : Record :=
  match extract_loop env.att max_retries 0 none with
  | some le => errorRecord url le
  | none => extract_body url env.body

/-- extract_metadata (lines 206-815, thread-local mode, default
max_retries = 2): the line 225 liveness pre-check with its creation
fallback of lines 226-243, then the navigation loop and the body. -/
def extract_metadata (url : String) (env : ExtractEnv)
    (max_retries : Nat := 2) : Record :=
  if env.initAlive then extract_metadata_run url env max_retries
  else
    match env.initCreate with
    | CreateOutcome.err e =>
      errorRecord url ("Driver creation failed: " ++ e)
    | CreateOutcome.ok => extract_metadata_run url env max_retries

/- ### extract_from_links (lines 914-1020) -/

/-- extract_from_links.  threadRes i is the outcome of the future for
index i (_process_single_video, which itself returns an error record on
failure; Except.error covers a future whose result() raised, turned
into the fallback record of lines 977-989).  seqRes url stands for
extract_metadata(url) in shared-driver mode.  The threaded phase fills
the pre-allocated slot list by original index, whatever the completion
order; the sequential try/for of lines 998-1007 is indented at the same
level as the if/else of lines 938-996 and therefore always runs,
appending one more record per link — in threaded mode every URL is
processed a second time.  Line 1013 then filters the None slots.
Periodic partial saves do not change the returned list and the final
save is modelled by save_results separately. -/
def extract_from_links (video_links : List String) (use_threading : Bool)
    (threadRes : Nat → Except String Record) (seqRes : String → Record) :
    List Record :=
  let all0 : List (Option Record) :=
    if use_threading ∧ video_links.length > 1 then
      (List.range video_links.length).map (fun i =>
        some (match threadRes i with
          | Except.ok m => m
          | Except.error e => errorRecord (video_links.getD i "unknown") e))
    else []
  let all1 := all0 ++ video_links.map (fun u => some (seqRes u))
  all1.filterMap id

/- ### finalize_and_retry_errors (lines 1081-1220) -/

/-- The statistics dict finalize_and_retry_errors returns. -/
structure RetryStats where
  retried : Nat
  successful : Nat
  still_failed : Nat
deriving Repr, DecidableEq

/-- Line 1117: v.get('error') is not None and v.get('error') != ''. -/
def hasError (v : Record) : Bool :=
  v.error ≠ none && v.error ≠ some ""

/-- Line 1126: v.get('url') truthiness. -/
def hasUrl (v : Record) : Bool := v.url ≠ ""

/-- Lines 1133-1137: the url → index dict, built once from the original
list; a later record with the same truthy url overwrites an earlier
one, so lookup yields the last such index. -/
def urlToIndexGo : List Record → Nat → String → Option Nat
  | [], _, _ => none
  | v :: rest, i, url =>
    match urlToIndexGo rest (i + 1) url with
    | some j => some j
    | none => if v.url ≠ "" ∧ v.url = url then some i else none

/-- url_to_index lookup. -/
def urlToIndex (videos : List Record) (url : String) : Option Nat :=
  urlToIndexGo videos 0 url

/-- Lines 1179-1181: overwrite the error of the record at idx. -/
def setRecordError (videos : List Record) (idx : Nat) (msg : String) :
    List Record :=
  match videos.get? idx with
  | some v => videos.set idx { v with error := some msg }
  | none => videos

/-- One iteration of the retry loop (lines 1149-1181).  lookup is the
fixed url_to_index map; retryRes url is the record
self.extract_metadata(url) returns, or the exception the retry raised
(handled at lines 1175-1181).  The state is (videos, successful_retries,
still_failed). -/
def finalizeStep (lookup : String → Option Nat)
    (retryRes : String → Except String Record)
    (st : List Record × Nat × Nat) (url : String) :
    List Record × Nat × Nat :=
  match retryRes url with
  | Except.ok new_metadata =>
    match lookup url with
    | some idx =>
      let videos2 := st.1.set idx new_metadata
      if truthyStr new_metadata.error then (videos2, st.2.1, st.2.2 + 1)
      else (videos2, st.2.1 + 1, st.2.2)
    | none =>
      let videos2 := st.1 ++ [new_metadata]
      if ¬ truthyStr new_metadata.error then (videos2, st.2.1 + 1, st.2.2)
      else (videos2, st.2.1, st.2.2 + 1)
  | Except.error e =>
    match lookup url with
    | some idx => (setRecordError st.1 idx ("Retry failed: " ++ e), st.2.1, st.2.2 + 1)
    | none => (st.1, st.2.1, st.2.2 + 1)

/-- Lines 1189-1198: the updated in-memory dict, with finalized_at and
the summary counters recomputed from the records.  The source builds
this value and never persists it: the save at lines 1201-1204 passes
only the videos list to save_results, which serialises its own fresh
dict of exactly total_videos, extracted_at and videos. -/
def finalizeInMemoryDoc (data : Doc) (videos : List Record) (now : String) :
    Doc :=
  let successful_total := (videos.filter (fun v => ¬ truthyStr v.error)).length
  { data with videos := videos, total_videos := videos.length,
              finalized_at := some now,
              successful_extractions := some successful_total,
              failed_extractions := some (videos.length - successful_total) }

/-- finalize_and_retry_errors over the file-system model.  A missing or
unloadable file returns zeros with the file system untouched (lines
1096-1105); so do a document without errored records (lines 1119-1121)
or whose errored records carry no truthy url (lines 1129-1130).  The
driver setup of lines 1144-1146 and the write of the final save are
taken to succeed: when either raises, the call propagates instead of
returning a dict, and only returning runs are modelled.  The loaded
document is in dict format, the only format save_results writes. -/
def finalize_and_retry_errors (fs : FS) (output_file : String)
    (retryRes : String → Except String Record) (extracted_at : String) :
    FS × RetryStats :=
  match fs output_file with
  | none => (fs, ⟨0, 0, 0⟩)
  | some data =>
    let videos := data.videos
    let failed_videos := videos.filter hasError
    if failed_videos = [] then (fs, ⟨0, 0, 0⟩)
    else
      let failed_urls := (failed_videos.filter hasUrl).map Record.url
      if failed_urls = [] then (fs, ⟨0, 0, 0⟩)
      else
        let st := failed_urls.foldl
          (finalizeStep (urlToIndex videos) retryRes) (videos, 0, 0)
        ((save_results fs st.1 output_file false extracted_at true).1,
          ⟨failed_urls.length, st.2.1, st.2.2⟩)

/- ### Auxiliary data for concrete runs -/

/-- A text made of already-normalised hashtags, as '#tag ' runs. -/
def renderTags (ts : List String) : String :=
  String.mk (ts.flatMap (fun t => '#' :: t.data ++ [' ']))

/-- An extraction environment whose DOM description holds one hashtag. -/
def sampleEnv : ExtractEnv :=
  { body := { domDescription := some "check #fun" } }

/-- A stored result document holding one errored record. -/
def sampleDoc : Doc :=
  ⟨1, some "t0", none, none, none, [errorRecord "u" "boom"]⟩

/-- A file system holding sampleDoc at out.json. -/
def sampleFS : FS := fun p => if p = "out.json" then some sampleDoc else none

/-- A retry pass whose re-extraction succeeds with a fresh record. -/
def sampleRetry : String → Except String Record :=
  fun _ => Except.ok { url := "u" }

/- ############################################################# -/
/- ### Theorems                                                  -/
/- ############################################################# -/

/-- C9: _is_driver_alive is total and non-throwing: on every driver
argument it returns a boolean, which is false for None, false whenever
the current_url probe raises (for any exception), and true exactly when
the probe returns a URL. -/
theorem is_driver_alive_spec :
    is_driver_alive none = false ∧
    (∀ e, is_driver_alive (some (Except.error e)) = false) ∧
    (∀ u, is_driver_alive (some (Except.ok u)) = true) :=
  ⟨rfl, fun _ => rfl, fun _ => rfl⟩

/-- C8: a creation error whose message matches no recoverable keyword
("permission denied") on the first of three attempts does not propagate
immediately: _create_driver silently runs a second attempt and returns
its driver.  The guard of lines 199-201 raises only on the final
attempt, so non-recoverable errors are retried like recoverable ones
(just without the backoff sleep). -/
theorem create_driver_retries_nonrecoverable :
    creationRecoverable "permission denied" = false ∧
    create_driver
      (fun i => if i = 0 then CreateOutcome.err "permission denied"
                else CreateOutcome.ok) 3 = Except.ok 2 :=
  ⟨by decide, rfl⟩

/-- C1: with two input URLs in threaded mode the run returns four
records, not two: the slot array is filled once per URL by index, and
the sequential try/for of lines 998-1007, indented outside the else
branch, then appends a second record for every URL.  Output length is
twice the input length, refuting len(videos) == len(input). -/
theorem extract_from_links_double :
    (extract_from_links ["u1", "u2"] true
      (fun i => Except.ok { url := if i = 0 then "u1" else "u2" })
      (fun u => { url := u })).map Record.url = ["u1", "u2", "u1", "u2"] ∧
    (extract_from_links ["u1", "u2"] true
      (fun i => Except.ok { url := if i = 0 then "u1" else "u2" })
      (fun u => { url := u })).length = 4 ∧
    ["u1", "u2"].length = 2 := by
  refine ⟨by decide, by decide, by decide⟩

/-- The temporary path differs from its target. -/
theorem tmpPath_ne (p : String) : tmpPath p ≠ p := by
  intro h
  have h2 : (tmpPath p).length = p.length := congrArg String.length h
  have h3 : (".tmp" : String).length = 4 := rfl
  simp only [tmpPath, String.length_append] at h2
  omega

/-- C3 counterexample: for a target path not containing '.json' the
partial-checkpoint path equals the final path, so the partial save goes
to the same file as the final document rather than to a distinct
'_partial' path. -/
theorem savePath_not_distinct :
    savePath "out.txt" true = savePath "out.txt" false := by decide

/-- C3 amended: save_results writes the whole document to target.tmp
and atomically renames it over the target, so a crash between write and
rename leaves the previously existing target untouched; a failing write
removes the temporary file, leaves the target untouched and propagates
the error; the partial path is the target with '.json' replaced by
'_partial.json', distinct from the final path for the program's
'.json'-suffixed outputs (but, per the counterexample, coinciding with
it when the target does not contain '.json'). -/
theorem save_results_atomic :
    (∀ (fs : FS) (m : List Record) (p : String) (ip : Bool) (t : String),
      save_results_crashed fs m p ip t (savePath p ip) = fs (savePath p ip)) ∧
    (∀ (fs : FS) (m : List Record) (p : String) (ip : Bool) (t : String),
      (save_results fs m p ip t true).1 (savePath p ip) = some (saveDoc m t) ∧
      (save_results fs m p ip t true).2 = none ∧
      (save_results fs m p ip t true).1 (tmpPath (savePath p ip)) = none) ∧
    (∀ (fs : FS) (m : List Record) (p : String) (ip : Bool) (t : String),
      (save_results fs m p ip t false).1 (savePath p ip) = fs (savePath p ip) ∧
      (save_results fs m p ip t false).1 (tmpPath (savePath p ip)) = none ∧
      (save_results fs m p ip t false).2 ≠ none) ∧
    savePath "links_metadata.json" true = "links_metadata_partial.json" := by
  refine ⟨?_, ?_, ?_, by decide⟩
  · intro fs m p ip t
    have hne := tmpPath_ne (savePath p ip)
    simp [save_results_crashed, fsWrite, hne.symm]
  · intro fs m p ip t
    have hne := tmpPath_ne (savePath p ip)
    refine ⟨?_, by simp [save_results], ?_⟩ <;>
      simp [save_results, fsRename, fsWrite, hne, hne.symm]
  · intro fs m p ip t
    have hne := tmpPath_ne (savePath p ip)
    refine ⟨?_, ?_, by simp [save_results]⟩ <;>
      simp [save_results, fsRemove, fsWrite, hne, hne.symm]

/-- C2: every record extract_metadata produces satisfies the claimed
invariant: when error is non-null, the title, description, username and
all five counts are null (so exactly one of the claim's alternatives
holds — when error is null the content fields are simply whatever the
tiers populated, populated-or-null).  The one handler that sets error
on an existing dict (line 800) only ever fires from the liveness raise
of lines 365-366, before any field is populated. -/
theorem errored_record_null (url : String) (env : ExtractEnv) (mr : Nat)
    (h : (extract_metadata url env mr).error ≠ none) :
    (extract_metadata url env mr).title = none ∧
    (extract_metadata url env mr).description = none ∧
    (extract_metadata url env mr).username = none ∧
    (extract_metadata url env mr).like_count = none ∧
    (extract_metadata url env mr).comment_count = none ∧
    (extract_metadata url env mr).share_count = none ∧
    (extract_metadata url env mr).view_count = none ∧
    (extract_metadata url env mr).archive_count = none := by
  have run_null : (extract_metadata_run url env mr).error ≠ none →
      (extract_metadata_run url env mr).title = none ∧
      (extract_metadata_run url env mr).description = none ∧
      (extract_metadata_run url env mr).username = none ∧
      (extract_metadata_run url env mr).like_count = none ∧
      (extract_metadata_run url env mr).comment_count = none ∧
      (extract_metadata_run url env mr).share_count = none ∧
      (extract_metadata_run url env mr).view_count = none ∧
      (extract_metadata_run url env mr).archive_count = none := by
    intro hrun
    cases hl : extract_loop env.att mr 0 none with
    | some le => simp [extract_metadata_run, hl, errorRecord]
    | none =>
      simp only [extract_metadata_run, hl] at hrun ⊢
      by_cases hb : env.body.bodyAlive
      · simp [extract_body, hb, finishRecord] at hrun
      · simp [extract_body, hb]
  unfold extract_metadata at h ⊢
  by_cases hia : env.initAlive
  · simpa [hia] using run_null (by simpa [hia] using h)
  · cases hic : env.initCreate with
    | ok => simpa [hia, hic] using run_null (by simpa [hia, hic] using h)
    | err e => simp [hia, hic, errorRecord]

/-- C2 witness: a run whose driver creation fails returns an errored
record with every content field null. -/
theorem errored_record_null_witness :
    (extract_metadata "u"
      { initAlive := false, initCreate := CreateOutcome.err "boom" } 2).title = none ∧
    (extract_metadata "u"
      { initAlive := false, initCreate := CreateOutcome.err "boom" } 2).description = none ∧
    (extract_metadata "u"
      { initAlive := false, initCreate := CreateOutcome.err "boom" } 2).username = none ∧
    (extract_metadata "u"
      { initAlive := false, initCreate := CreateOutcome.err "boom" } 2).like_count = none ∧
    (extract_metadata "u"
      { initAlive := false, initCreate := CreateOutcome.err "boom" } 2).comment_count = none ∧
    (extract_metadata "u"
      { initAlive := false, initCreate := CreateOutcome.err "boom" } 2).share_count = none ∧
    (extract_metadata "u"
      { initAlive := false, initCreate := CreateOutcome.err "boom" } 2).view_count = none ∧
    (extract_metadata "u"
      { initAlive := false, initCreate := CreateOutcome.err "boom" } 2).archive_count = none :=
  errored_record_null "u"
    { initAlive := false, initCreate := CreateOutcome.err "boom" } 2 (by decide)

/-- The left fold of Nat.min is a member of seed-or-list and a lower
bound of both. -/
theorem foldl_min_spec : ∀ (l : List Nat) (a : Nat),
    (l.foldl Nat.min a = a ∨ l.foldl Nat.min a ∈ l) ∧
    l.foldl Nat.min a ≤ a ∧ ∀ x ∈ l, l.foldl Nat.min a ≤ x := by
  intro l
  induction l with
  | nil =>
    intro a
    exact ⟨Or.inl rfl, Nat.le_refl a, fun x hx => absurd hx (List.not_mem_nil x)⟩
  | cons c cs ih =>
    intro a
    obtain ⟨hm, hl, ha⟩ := ih (Nat.min a c)
    have hminl : Nat.min a c ≤ a := Nat.min_le_left a c
    have hminr : Nat.min a c ≤ c := Nat.min_le_right a c
    have hchoice : Nat.min a c = a ∨ Nat.min a c = c := by
      by_cases hac : a ≤ c
      · exact Or.inl (Nat.min_eq_left hac)
      · exact Or.inr (Nat.min_eq_right (Nat.le_of_not_le hac))
    simp only [List.foldl_cons]
    refine ⟨?_, by omega, ?_⟩
    · rcases hm with h | h
      · rcases hchoice with h2 | h2
        · exact Or.inl (h.trans h2)
        · exact Or.inr (by rw [h, h2]; exact List.mem_cons_self c cs)
      · exact Or.inr (List.mem_cons_of_mem c h)
    · intro x hx
      rcases List.mem_cons.mp hx with rfl | hx2
      · omega
      · exact ha x hx2

/-- The left fold of Nat.max is a member of seed-or-list and an upper
bound of both. -/
theorem foldl_max_spec : ∀ (l : List Nat) (a : Nat),
    (l.foldl Nat.max a = a ∨ l.foldl Nat.max a ∈ l) ∧
    a ≤ l.foldl Nat.max a ∧ ∀ x ∈ l, x ≤ l.foldl Nat.max a := by
  intro l
  induction l with
  | nil =>
    intro a
    exact ⟨Or.inl rfl, Nat.le_refl a, fun x hx => absurd hx (List.not_mem_nil x)⟩
  | cons c cs ih =>
    intro a
    obtain ⟨hm, hl, ha⟩ := ih (Nat.max a c)
    have hmaxl : a ≤ Nat.max a c := Nat.le_max_left a c
    have hmaxr : c ≤ Nat.max a c := Nat.le_max_right a c
    have hchoice : Nat.max a c = a ∨ Nat.max a c = c := by
      by_cases hac : a ≤ c
      · exact Or.inr (Nat.max_eq_right hac)
      · exact Or.inl (Nat.max_eq_left (Nat.le_of_not_le hac))
    simp only [List.foldl_cons]
    refine ⟨?_, by omega, ?_⟩
    · rcases hm with h | h
      · rcases hchoice with h2 | h2
        · exact Or.inl (h.trans h2)
        · exact Or.inr (by rw [h, h2]; exact List.mem_cons_self c cs)
      · exact Or.inr (List.mem_cons_of_mem c h)
    · intro x hx
      rcases List.mem_cons.mp hx with rfl | hx2
      · omega
      · exact ha x hx2

/-- int(min(matches, key=int)) really is the minimum candidate. -/
theorem pyMin_spec {l : List Nat} {v : Nat} (h : pyMin l = some v) :
    v ∈ l ∧ ∀ x ∈ l, v ≤ x := by
  cases l with
  | nil => simp [pyMin] at h
  | cons a as =>
    simp only [pyMin, Option.some.injEq] at h
    subst h
    obtain ⟨hm, hl, ha⟩ := foldl_min_spec as a
    refine ⟨?_, ?_⟩
    · rcases hm with h | h
      · rw [h]; exact List.mem_cons_self a as
      · exact List.mem_cons_of_mem a h
    · intro x hx
      rcases List.mem_cons.mp hx with rfl | hx2
      · exact hl
      · exact ha x hx2

/-- int(max(matches, key=int)) really is the maximum candidate. -/
theorem pyMax_spec {l : List Nat} {v : Nat} (h : pyMax l = some v) :
    v ∈ l ∧ ∀ x ∈ l, x ≤ v := by
  cases l with
  | nil => simp [pyMax] at h
  | cons a as =>
    simp only [pyMax, Option.some.injEq] at h
    subst h
    obtain ⟨hm, hl, ha⟩ := foldl_max_spec as a
    refine ⟨?_, ?_⟩
    · rcases hm with h | h
      · rw [h]; exact List.mem_cons_self a as
      · exact List.mem_cons_of_mem a h
    · intro x hx
      rcases List.mem_cons.mp hx with rfl | hx2
      · exact hl
      · exact ha x hx2

/-- pyMin of a non-empty list yields a value. -/
theorem pyMin_ne_none {l : List Nat} (h : l ≠ []) : ∃ v, pyMin l = some v := by
  cases l with
  | nil => exact absurd rfl h
  | cons a as => exact ⟨as.foldl Nat.min a, rfl⟩

/-- pyMax of a non-empty list yields a value. -/
theorem pyMax_ne_none {l : List Nat} (h : l ≠ []) : ∃ v, pyMax l = some v := by
  cases l with
  | nil => exact absurd rfl h
  | cons a as => exact ⟨as.foldl Nat.max a, rfl⟩

/-- usernameStep only touches the username field. -/
theorem usernameStep_counts (url : String) (du : Option String) (s : MState) :
    (usernameStep url du s).like_count = s.like_count ∧
    (usernameStep url du s).comment_count = s.comment_count ∧
    (usernameStep url du s).share_count = s.share_count ∧
    (usernameStep url du s).view_count = s.view_count ∧
    (usernameStep url du s).archive_count = s.archive_count := by
  unfold usernameStep
  refine ⟨?_, ?_, ?_, ?_, ?_⟩ <;> (dsimp only; repeat' split) <;> rfl

/-- With no selector hit and no page-source match the description
section leaves the state unchanged. -/
theorem descriptionStep_id (dsa : Bool) (s : MState) :
    descriptionStep none dsa none s = s := by
  unfold descriptionStep
  by_cases h : truthyStr s.description <;> simp [h]

/- Field-level facts about the universal-data tier sub-steps. -/

@[simp] theorem uStepLike_set (u : UniversalMatches) (s : MState) :
    (uStepLike u s).like_count
      = (match pyMin u.digg with | some v => some v | none => s.like_count) := by
  unfold uStepLike; split <;> simp_all

@[simp] theorem uStepLike_comment (u : UniversalMatches) (s : MState) :
    (uStepLike u s).comment_count = s.comment_count := by
  unfold uStepLike; split <;> rfl

@[simp] theorem uStepLike_share (u : UniversalMatches) (s : MState) :
    (uStepLike u s).share_count = s.share_count := by
  unfold uStepLike; split <;> rfl

@[simp] theorem uStepLike_view (u : UniversalMatches) (s : MState) :
    (uStepLike u s).view_count = s.view_count := by
  unfold uStepLike; split <;> rfl

@[simp] theorem uStepLike_archive (u : UniversalMatches) (s : MState) :
    (uStepLike u s).archive_count = s.archive_count := by
  unfold uStepLike; split <;> rfl

@[simp] theorem uStepComment_set (u : UniversalMatches) (s : MState) :
    (uStepComment u s).comment_count
      = (match pyMax u.comment with | some v => some v | none => s.comment_count) := by
  unfold uStepComment; split <;> simp_all

@[simp] theorem uStepComment_like (u : UniversalMatches) (s : MState) :
    (uStepComment u s).like_count = s.like_count := by
  unfold uStepComment; split <;> rfl

@[simp] theorem uStepComment_share (u : UniversalMatches) (s : MState) :
    (uStepComment u s).share_count = s.share_count := by
  unfold uStepComment; split <;> rfl

@[simp] theorem uStepComment_view (u : UniversalMatches) (s : MState) :
    (uStepComment u s).view_count = s.view_count := by
  unfold uStepComment; split <;> rfl

@[simp] theorem uStepComment_archive (u : UniversalMatches) (s : MState) :
    (uStepComment u s).archive_count = s.archive_count := by
  unfold uStepComment; split <;> rfl

@[simp] theorem uStepShare_set (u : UniversalMatches) (s : MState) :
    (uStepShare u s).share_count
      = (match pyMax u.share with | some v => some v | none => s.share_count) := by
  unfold uStepShare; split <;> simp_all

@[simp] theorem uStepShare_like (u : UniversalMatches) (s : MState) :
    (uStepShare u s).like_count = s.like_count := by
  unfold uStepShare; split <;> rfl

@[simp] theorem uStepShare_comment (u : UniversalMatches) (s : MState) :
    (uStepShare u s).comment_count = s.comment_count := by
  unfold uStepShare; split <;> rfl

@[simp] theorem uStepShare_view (u : UniversalMatches) (s : MState) :
    (uStepShare u s).view_count = s.view_count := by
  unfold uStepShare; split <;> rfl

@[simp] theorem uStepShare_archive (u : UniversalMatches) (s : MState) :
    (uStepShare u s).archive_count = s.archive_count := by
  unfold uStepShare; split <;> rfl

@[simp] theorem uStepView_set (u : UniversalMatches) (s : MState) :
    (uStepView u s).view_count
      = (match pyMax u.play with | some v => some v | none => s.view_count) := by
  unfold uStepView; split <;> simp_all

@[simp] theorem uStepView_like (u : UniversalMatches) (s : MState) :
    (uStepView u s).like_count = s.like_count := by
  unfold uStepView; split <;> rfl

@[simp] theorem uStepView_comment (u : UniversalMatches) (s : MState) :
    (uStepView u s).comment_count = s.comment_count := by
  unfold uStepView; split <;> rfl

@[simp] theorem uStepView_share (u : UniversalMatches) (s : MState) :
    (uStepView u s).share_count = s.share_count := by
  unfold uStepView; split <;> rfl

@[simp] theorem uStepView_archive (u : UniversalMatches) (s : MState) :
    (uStepView u s).archive_count = s.archive_count := by
  unfold uStepView; split <;> rfl

@[simp] theorem uStepCollect_set (u : UniversalMatches) (s : MState) :
    (uStepCollect u s).archive_count
      = (match pyMax u.collect with | some v => some v | none => s.archive_count) := by
  unfold uStepCollect; split <;> simp_all

@[simp] theorem uStepCollect_like (u : UniversalMatches) (s : MState) :
    (uStepCollect u s).like_count = s.like_count := by
  unfold uStepCollect; split <;> rfl

@[simp] theorem uStepCollect_comment (u : UniversalMatches) (s : MState) :
    (uStepCollect u s).comment_count = s.comment_count := by
  unfold uStepCollect; split <;> rfl

@[simp] theorem uStepCollect_share (u : UniversalMatches) (s : MState) :
    (uStepCollect u s).share_count = s.share_count := by
  unfold uStepCollect; split <;> rfl

@[simp] theorem uStepCollect_view (u : UniversalMatches) (s : MState) :
    (uStepCollect u s).view_count = s.view_count := by
  unfold uStepCollect; split <;> rfl

@[simp] theorem uStepUser_counts (u : UniversalMatches) (s : MState) :
    (uStepUser u s).like_count = s.like_count ∧
    (uStepUser u s).comment_count = s.comment_count ∧
    (uStepUser u s).share_count = s.share_count ∧
    (uStepUser u s).view_count = s.view_count ∧
    (uStepUser u s).archive_count = s.archive_count := by
  unfold uStepUser; (repeat' split) <;> exact ⟨rfl, rfl, rfl, rfl, rfl⟩

@[simp] theorem uStepDesc_counts (u : UniversalMatches) (s : MState) :
    (uStepDesc u s).like_count = s.like_count ∧
    (uStepDesc u s).comment_count = s.comment_count ∧
    (uStepDesc u s).share_count = s.share_count ∧
    (uStepDesc u s).view_count = s.view_count ∧
    (uStepDesc u s).archive_count = s.archive_count := by
  unfold uStepDesc; (repeat' split) <;> exact ⟨rfl, rfl, rfl, rfl, rfl⟩

/-- The universal-data tier assignments, per count field. -/
theorem jsUniversalStep_counts (u : UniversalMatches) (s : MState) :
    (jsUniversalStep ⟨[], none, some u⟩ s).like_count
      = (match pyMin u.digg with | some v => some v | none => s.like_count) ∧
    (jsUniversalStep ⟨[], none, some u⟩ s).comment_count
      = (match pyMax u.comment with | some v => some v | none => s.comment_count) ∧
    (jsUniversalStep ⟨[], none, some u⟩ s).share_count
      = (match pyMax u.share with | some v => some v | none => s.share_count) ∧
    (jsUniversalStep ⟨[], none, some u⟩ s).view_count
      = (match pyMax u.play with | some v => some v | none => s.view_count) ∧
    (jsUniversalStep ⟨[], none, some u⟩ s).archive_count
      = (match pyMax u.collect with | some v => some v | none => s.archive_count) := by
  unfold jsUniversalStep
  simp

/- Field-level facts about the page-source fallback tier sub-steps. -/

@[simp] theorem psLikeStep_set (ps : PageSourceData) (s : MState)
    (h : s.like_count = none) :
    (psLikeStep ps s).like_count
      = (match pyMin (ps.digg ++ ps.like) with | some v => some v | none => none) := by
  unfold psLikeStep
  rw [h]
  (repeat' split) <;> simp_all [truthyNat]

@[simp] theorem psLikeStep_comment (ps : PageSourceData) (s : MState) :
    (psLikeStep ps s).comment_count = s.comment_count := by
  unfold psLikeStep; (repeat' split) <;> rfl

@[simp] theorem psLikeStep_share (ps : PageSourceData) (s : MState) :
    (psLikeStep ps s).share_count = s.share_count := by
  unfold psLikeStep; (repeat' split) <;> rfl

@[simp] theorem psLikeStep_view (ps : PageSourceData) (s : MState) :
    (psLikeStep ps s).view_count = s.view_count := by
  unfold psLikeStep; (repeat' split) <;> rfl

@[simp] theorem psLikeStep_archive (ps : PageSourceData) (s : MState) :
    (psLikeStep ps s).archive_count = s.archive_count := by
  unfold psLikeStep; (repeat' split) <;> rfl

@[simp] theorem psCommentStep_set (ps : PageSourceData) (s : MState)
    (h : s.comment_count = none) :
    (psCommentStep ps s).comment_count
      = (match pyMax ps.comment with | some v => some v | none => none) := by
  unfold psCommentStep
  rw [h]
  (repeat' split) <;> simp_all [truthyNat]

@[simp] theorem psCommentStep_like (ps : PageSourceData) (s : MState) :
    (psCommentStep ps s).like_count = s.like_count := by
  unfold psCommentStep; (repeat' split) <;> rfl

@[simp] theorem psCommentStep_share (ps : PageSourceData) (s : MState) :
    (psCommentStep ps s).share_count = s.share_count := by
  unfold psCommentStep; (repeat' split) <;> rfl

@[simp] theorem psCommentStep_view (ps : PageSourceData) (s : MState) :
    (psCommentStep ps s).view_count = s.view_count := by
  unfold psCommentStep; (repeat' split) <;> rfl

@[simp] theorem psCommentStep_archive (ps : PageSourceData) (s : MState) :
    (psCommentStep ps s).archive_count = s.archive_count := by
  unfold psCommentStep; (repeat' split) <;> rfl

@[simp] theorem psShareStep_set (ps : PageSourceData) (s : MState)
    (h : s.share_count = none) :
    (psShareStep ps s).share_count
      = (match pyMax ps.share with | some v => some v | none => none) := by
  unfold psShareStep
  rw [h]
  (repeat' split) <;> simp_all [truthyNat]

@[simp] theorem psShareStep_like (ps : PageSourceData) (s : MState) :
    (psShareStep ps s).like_count = s.like_count := by
  unfold psShareStep; (repeat' split) <;> rfl

@[simp] theorem psShareStep_comment (ps : PageSourceData) (s : MState) :
    (psShareStep ps s).comment_count = s.comment_count := by
  unfold psShareStep; (repeat' split) <;> rfl

@[simp] theorem psShareStep_view (ps : PageSourceData) (s : MState) :
    (psShareStep ps s).view_count = s.view_count := by
  unfold psShareStep; (repeat' split) <;> rfl

@[simp] theorem psShareStep_archive (ps : PageSourceData) (s : MState) :
    (psShareStep ps s).archive_count = s.archive_count := by
  unfold psShareStep; (repeat' split) <;> rfl

@[simp] theorem psViewStep_set (ps : PageSourceData) (s : MState)
    (h : s.view_count = none) :
    (psViewStep ps s).view_count
      = (match pyMax (ps.play ++ ps.view) with | some v => some v | none => none) := by
  unfold psViewStep
  rw [h]
  (repeat' split) <;> simp_all [truthyNat]

@[simp] theorem psViewStep_like (ps : PageSourceData) (s : MState) :
    (psViewStep ps s).like_count = s.like_count := by
  unfold psViewStep; (repeat' split) <;> rfl

@[simp] theorem psViewStep_comment (ps : PageSourceData) (s : MState) :
    (psViewStep ps s).comment_count = s.comment_count := by
  unfold psViewStep; (repeat' split) <;> rfl

@[simp] theorem psViewStep_share (ps : PageSourceData) (s : MState) :
    (psViewStep ps s).share_count = s.share_count := by
  unfold psViewStep; (repeat' split) <;> rfl

@[simp] theorem psViewStep_archive (ps : PageSourceData) (s : MState) :
    (psViewStep ps s).archive_count = s.archive_count := by
  unfold psViewStep; (repeat' split) <;> rfl

@[simp] theorem psCollectStep_set (ps : PageSourceData) (s : MState)
    (h : s.archive_count = none) :
    (psCollectStep ps s).archive_count
      = (match pyMax ps.collect with | some v => some v | none => none) := by
  unfold psCollectStep
  rw [h]
  (repeat' split) <;> simp_all [truthyNat]

@[simp] theorem psCollectStep_like (ps : PageSourceData) (s : MState) :
    (psCollectStep ps s).like_count = s.like_count := by
  unfold psCollectStep; (repeat' split) <;> rfl

@[simp] theorem psCollectStep_comment (ps : PageSourceData) (s : MState) :
    (psCollectStep ps s).comment_count = s.comment_count := by
  unfold psCollectStep; (repeat' split) <;> rfl

@[simp] theorem psCollectStep_share (ps : PageSourceData) (s : MState) :
    (psCollectStep ps s).share_count = s.share_count := by
  unfold psCollectStep; (repeat' split) <;> rfl

@[simp] theorem psCollectStep_view (ps : PageSourceData) (s : MState) :
    (psCollectStep ps s).view_count = s.view_count := by
  unfold psCollectStep; (repeat' split) <;> rfl

/-- The page-source regex tier assignments from a state with no counts
yet. -/
theorem psRegexStep_counts (ps : PageSourceData) (s : MState)
    (h1 : s.like_count = none) (h2 : s.comment_count = none)
    (h3 : s.share_count = none) (h4 : s.view_count = none)
    (h5 : s.archive_count = none) :
    (psRegexStep ps s).like_count
      = (match pyMin (ps.digg ++ ps.like) with | some v => some v | none => none) ∧
    (psRegexStep ps s).comment_count
      = (match pyMax ps.comment with | some v => some v | none => none) ∧
    (psRegexStep ps s).share_count
      = (match pyMax ps.share with | some v => some v | none => none) ∧
    (psRegexStep ps s).view_count
      = (match pyMax (ps.play ++ ps.view) with | some v => some v | none => none) ∧
    (psRegexStep ps s).archive_count
      = (match pyMax ps.collect with | some v => some v | none => none) := by
  unfold psRegexStep
  simp [h1, h2, h3, h4, h5]

/- The DOM tier does nothing when no element token was found. -/

@[simp] theorem domLikeStep_none (s : MState) : domLikeStep {} s = s := by
  unfold domLikeStep; (repeat' split) <;> simp_all

@[simp] theorem domCommentStep_none (s : MState) : domCommentStep {} s = s := by
  unfold domCommentStep; (repeat' split) <;> simp_all

@[simp] theorem domShareStep_none (s : MState) : domShareStep {} s = s := by
  unfold domShareStep; (repeat' split) <;> simp_all

@[simp] theorem domViewStep_none (s : MState) : domViewStep {} s = s := by
  unfold domViewStep; (repeat' split) <;> simp_all

@[simp] theorem domCollectStep_none (s : MState) : domCollectStep {} s = s := by
  unfold domCollectStep; (repeat' split) <;> simp_all

/-- With no visible-element tokens the DOM tier leaves the state
unchanged. -/
theorem domStep_id (s : MState) : domStep {} s = s := by
  unfold domStep
  simp

/-- C4: when a tier yields multiple numeric candidates for one field,
the asymmetric selection applies.  First block: in the universal-data
tier the record's like_count is int(min(diggCount matches)) while
comment, share, view and archive counts take the maximum (with the
later tiers inert).  Second block: the same holds in the page-source
regex tier, like over the diggCount++likeCount matches, view over
playCount++viewCount.  Third and fourth: pyMin/pyMax really select the
minimum/maximum candidate.  Last: the spec's examples — like
candidates [120, 118, 120] select 118, view candidates [900, 950]
select 950. -/
theorem tier_minmax_selection :
    (∀ (url : String) (u : UniversalMatches),
      (extract_metadata url
          { body := { js := some ⟨[], none, some u⟩, metricsAlive := false } } 2).like_count
        = (match pyMin u.digg with | some v => some v | none => none) ∧
      (extract_metadata url
          { body := { js := some ⟨[], none, some u⟩, metricsAlive := false } } 2).comment_count
        = (match pyMax u.comment with | some v => some v | none => none) ∧
      (extract_metadata url
          { body := { js := some ⟨[], none, some u⟩, metricsAlive := false } } 2).share_count
        = (match pyMax u.share with | some v => some v | none => none) ∧
      (extract_metadata url
          { body := { js := some ⟨[], none, some u⟩, metricsAlive := false } } 2).view_count
        = (match pyMax u.play with | some v => some v | none => none) ∧
      (extract_metadata url
          { body := { js := some ⟨[], none, some u⟩, metricsAlive := false } } 2).archive_count
        = (match pyMax u.collect with | some v => some v | none => none)) ∧
    (∀ (url : String) (digg like comment share play view collect : List Nat),
      (extract_metadata url
          { body := { ps := { digg := digg, like := like,
                              comment := comment, share := share,
                              play := play, view := view,
                              collect := collect } } } 2).like_count
        = (match pyMin (digg ++ like) with | some v => some v | none => none) ∧
      (extract_metadata url
          { body := { ps := { digg := digg, like := like,
                              comment := comment, share := share,
                              play := play, view := view,
                              collect := collect } } } 2).comment_count
        = (match pyMax comment with | some v => some v | none => none) ∧
      (extract_metadata url
          { body := { ps := { digg := digg, like := like,
                              comment := comment, share := share,
                              play := play, view := view,
                              collect := collect } } } 2).share_count
        = (match pyMax share with | some v => some v | none => none) ∧
      (extract_metadata url
          { body := { ps := { digg := digg, like := like,
                              comment := comment, share := share,
                              play := play, view := view,
                              collect := collect } } } 2).view_count
        = (match pyMax (play ++ view) with | some v => some v | none => none) ∧
      (extract_metadata url
          { body := { ps := { digg := digg, like := like,
                              comment := comment, share := share,
                              play := play, view := view,
                              collect := collect } } } 2).archive_count
        = (match pyMax collect with | some v => some v | none => none)) ∧
    (∀ (l : List Nat) (v : Nat), pyMin l = some v → v ∈ l ∧ ∀ x ∈ l, v ≤ x) ∧
    (∀ (l : List Nat) (v : Nat), pyMax l = some v → v ∈ l ∧ ∀ x ∈ l, x ≤ v) ∧
    (extract_metadata "u"
        { body := { js := some ⟨[], none,
                      some ⟨[120, 118, 120], [], [], [900, 950], [], [], []⟩⟩,
                    metricsAlive := false } } 2).like_count = some 118 ∧
    (extract_metadata "u"
        { body := { js := some ⟨[], none,
                      some ⟨[120, 118, 120], [], [], [900, 950], [], [], []⟩⟩,
                    metricsAlive := false } } 2).view_count = some 950 := by
  refine ⟨?_, ?_, fun l v h => pyMin_spec h, fun l v h => pyMax_spec h,
    by decide, by decide⟩
  · intro url u
    refine ⟨?_, ?_, ?_, ?_, ?_⟩
    · show (descriptionStep none true none (usernameStep url none
        (jsUniversalStep ⟨[], none, some u⟩ {}))).like_count = _
      rw [descriptionStep_id, (usernameStep_counts url none _).1,
        (jsUniversalStep_counts u {}).1]
    · show (descriptionStep none true none (usernameStep url none
        (jsUniversalStep ⟨[], none, some u⟩ {}))).comment_count = _
      rw [descriptionStep_id, (usernameStep_counts url none _).2.1,
        (jsUniversalStep_counts u {}).2.1]
    · show (descriptionStep none true none (usernameStep url none
        (jsUniversalStep ⟨[], none, some u⟩ {}))).share_count = _
      rw [descriptionStep_id, (usernameStep_counts url none _).2.2.1,
        (jsUniversalStep_counts u {}).2.2.1]
    · show (descriptionStep none true none (usernameStep url none
        (jsUniversalStep ⟨[], none, some u⟩ {}))).view_count = _
      rw [descriptionStep_id, (usernameStep_counts url none _).2.2.2.1,
        (jsUniversalStep_counts u {}).2.2.2.1]
    · show (descriptionStep none true none (usernameStep url none
        (jsUniversalStep ⟨[], none, some u⟩ {}))).archive_count = _
      rw [descriptionStep_id, (usernameStep_counts url none _).2.2.2.2,
        (jsUniversalStep_counts u {}).2.2.2.2]
  · intro url digg like comment share play view collect
    have h1 : (usernameStep url none {}).like_count = none :=
      (usernameStep_counts url none {}).1
    have h2 : (usernameStep url none {}).comment_count = none :=
      (usernameStep_counts url none {}).2.1
    have h3 : (usernameStep url none {}).share_count = none :=
      (usernameStep_counts url none {}).2.2.1
    have h4 : (usernameStep url none {}).view_count = none :=
      (usernameStep_counts url none {}).2.2.2.1
    have h5 : (usernameStep url none {}).archive_count = none :=
      (usernameStep_counts url none {}).2.2.2.2
    have hps := psRegexStep_counts
      { digg := digg, like := like, comment := comment, share := share,
        play := play, view := view, collect := collect }
      (descriptionStep none true none (usernameStep url none {}))
      (by rw [descriptionStep_id]; exact h1)
      (by rw [descriptionStep_id]; exact h2)
      (by rw [descriptionStep_id]; exact h3)
      (by rw [descriptionStep_id]; exact h4)
      (by rw [descriptionStep_id]; exact h5)
    refine ⟨?_, ?_, ?_, ?_, ?_⟩
    · show (domStep {} (psRegexStep _ (descriptionStep none true none
        (usernameStep url none {})))).like_count = _
      rw [domStep_id]
      exact hps.1
    · show (domStep {} (psRegexStep _ (descriptionStep none true none
        (usernameStep url none {})))).comment_count = _
      rw [domStep_id]
      exact hps.2.1
    · show (domStep {} (psRegexStep _ (descriptionStep none true none
        (usernameStep url none {})))).share_count = _
      rw [domStep_id]
      exact hps.2.2.1
    · show (domStep {} (psRegexStep _ (descriptionStep none true none
        (usernameStep url none {})))).view_count = _
      rw [domStep_id]
      exact hps.2.2.2.1
    · show (domStep {} (psRegexStep _ (descriptionStep none true none
        (usernameStep url none {})))).archive_count = _
      rw [domStep_id]
      exact hps.2.2.2.2

/-- C4 witness: the selection facts applied to the spec's example
candidate lists. -/
theorem tier_minmax_selection_witness :
    ((118 : Nat) ∈ [120, 118, 120] ∧ ∀ x ∈ [120, 118, 120], (118 : Nat) ≤ x) ∧
    ((950 : Nat) ∈ [900, 950] ∧ ∀ x ∈ [900, 950], x ≤ (950 : Nat)) :=
  ⟨tier_minmax_selection.2.2.1 [120, 118, 120] 118 (by decide),
   tier_minmax_selection.2.2.2.1 [900, 950] 950 (by decide)⟩

/-- Each iteration of the retry loop increments exactly one of the two
counters by one. -/
theorem finalizeStep_counts (lookup : String → Option Nat)
    (retryRes : String → Except String Record)
    (st : List Record × Nat × Nat) (url : String) :
    (finalizeStep lookup retryRes st url).2.1
      + (finalizeStep lookup retryRes st url).2.2 = st.2.1 + st.2.2 + 1 := by
  unfold finalizeStep
  (repeat' split) <;> simp <;> omega

/-- Over the whole loop the counters add up to the number of retried
urls. -/
theorem finalizeFold_counts (lookup : String → Option Nat)
    (retryRes : String → Except String Record) :
    ∀ (us : List String) (vs : List Record) (s f : Nat),
      (us.foldl (finalizeStep lookup retryRes) (vs, s, f)).2.1
        + (us.foldl (finalizeStep lookup retryRes) (vs, s, f)).2.2
      = s + f + us.length := by
  intro us
  induction us with
  | nil => intro vs s f; simp
  | cons u us ih =>
    intro vs s f
    simp only [List.foldl_cons, List.length_cons]
    have hstep : (finalizeStep lookup retryRes (vs, s, f) u).2.1
        + (finalizeStep lookup retryRes (vs, s, f) u).2.2 = s + f + 1 :=
      finalizeStep_counts lookup retryRes (vs, s, f) u
    have h2 := ih (finalizeStep lookup retryRes (vs, s, f) u).1
      (finalizeStep lookup retryRes (vs, s, f) u).2.1
      (finalizeStep lookup retryRes (vs, s, f) u).2.2
    simp only [Prod.mk.eta] at h2
    omega

/-- C10: the statistics dict finalize_and_retry_errors returns always
satisfies retried == successful + still_failed (all counts in Nat,
hence non-negative); when the document loads, retried equals the
number of errored records carrying a truthy url (in particular zero
when there are no errored records or none of them has a url); when the
file is missing or unloadable all three counts are zero. -/
theorem finalize_stats (fs : FS) (p : String)
    (retryRes : String → Except String Record) (t : String) :
    (finalize_and_retry_errors fs p retryRes t).2.retried
      = (finalize_and_retry_errors fs p retryRes t).2.successful
        + (finalize_and_retry_errors fs p retryRes t).2.still_failed ∧
    (∀ d, fs p = some d →
      (finalize_and_retry_errors fs p retryRes t).2.retried
        = ((d.videos.filter hasError).filter hasUrl).length) ∧
    (fs p = none → (finalize_and_retry_errors fs p retryRes t).2 = ⟨0, 0, 0⟩) := by
  cases hfs : fs p with
  | none =>
    have hred : finalize_and_retry_errors fs p retryRes t = (fs, ⟨0, 0, 0⟩) := by
      simp only [finalize_and_retry_errors, hfs]
    rw [hred]
    exact ⟨rfl, fun d hd => Option.noConfusion hd, fun _ => rfl⟩
  | some data =>
    simp only [finalize_and_retry_errors, hfs]
    by_cases hfv : data.videos.filter hasError = []
    · rw [if_pos hfv]
      refine ⟨rfl, ?_, fun _ => rfl⟩
      intro d hd
      obtain rfl : data = d := Option.some.inj hd
      simp [hfv]
    · rw [if_neg hfv]
      by_cases hfu :
          ((data.videos.filter hasError).filter hasUrl).map Record.url = []
      · rw [if_pos hfu]
        refine ⟨rfl, ?_, fun h => Option.noConfusion h⟩
        intro d hd
        obtain rfl : data = d := Option.some.inj hd
        have hlen := congrArg List.length hfu
        simp only [List.length_map] at hlen
        simpa using hlen.symm
      · rw [if_neg hfu]
        refine ⟨?_, ?_, fun h => Option.noConfusion h⟩
        · have hsum := finalizeFold_counts (urlToIndex data.videos) retryRes
            (((data.videos.filter hasError).filter hasUrl).map Record.url)
            data.videos 0 0
          show (((data.videos.filter hasError).filter hasUrl).map Record.url).length
            = ((((data.videos.filter hasError).filter hasUrl).map Record.url).foldl
                (finalizeStep (urlToIndex data.videos) retryRes)
                (data.videos, 0, 0)).2.1
              + ((((data.videos.filter hasError).filter hasUrl).map Record.url).foldl
                (finalizeStep (urlToIndex data.videos) retryRes)
                (data.videos, 0, 0)).2.2
          omega
        · intro d hd
          obtain rfl : data = d := Option.some.inj hd
          exact List.length_map _ _

/-- C10 witness: the counting facts at a concrete stored document with
one errored record. -/
theorem finalize_stats_witness :
    (finalize_and_retry_errors sampleFS "out.json" sampleRetry "t1").2.retried
      = (finalize_and_retry_errors sampleFS "out.json" sampleRetry "t1").2.successful
        + (finalize_and_retry_errors sampleFS "out.json" sampleRetry "t1").2.still_failed ∧
    (finalize_and_retry_errors sampleFS "out.json" sampleRetry "t1").2.retried
      = ((sampleDoc.videos.filter hasError).filter hasUrl).length :=
  ⟨(finalize_stats sampleFS "out.json" sampleRetry "t1").1,
   (finalize_stats sampleFS "out.json" sampleRetry "t1").2.1 sampleDoc (by decide)⟩

/-- toUpper leaves characters below the lowercase letters unchanged. -/
theorem toUpper_eq_self {c : Char} (h : c.toNat < 97) : c.toUpper = c := by
  simp only [Char.toUpper]
  rw [if_neg (by omega)]

/-- Characters at code point 14 and above, other than the space, are
not whitespace. -/
theorem not_whitespace {c : Char} (h14 : 14 ≤ c.toNat) (h32 : c.toNat ≠ 32) :
    c.isWhitespace = false := by
  have hs : c ≠ ' ' := fun hc => h32 ((congrArg Char.toNat hc).trans (by decide))
  have ht : c ≠ Char.ofNat 9 := fun hc => by
    have h9 := (congrArg Char.toNat hc).trans
      (by decide : (Char.ofNat 9).toNat = 9)
    omega
  have hr : c ≠ Char.ofNat 13 := fun hc => by
    have h13 := (congrArg Char.toNat hc).trans
      (by decide : (Char.ofNat 13).toNat = 13)
    omega
  have hn : c ≠ Char.ofNat 10 := fun hc => by
    have h10 := (congrArg Char.toNat hc).trans
      (by decide : (Char.ofNat 10).toNat = 10)
    omega
  have hts : (Char.ofNat 9 : Char) = '\t' := by decide
  have hrs : (Char.ofNat 13 : Char) = '\r' := by decide
  have hns : (Char.ofNat 10 : Char) = '\n' := by decide
  rw [hts] at ht; rw [hrs] at hr; rw [hns] at hn
  simp [Char.isWhitespace, hs, ht, hr, hn]

/-- Unequal code points give unequal characters. -/
theorem ne_of_toNat_ne {c d : Char} (h : c.toNat ≠ d.toNat) : c ≠ d :=
  fun hc => h (congrArg Char.toNat hc)

/-- The character facts about digits the parse_count pipeline needs. -/
theorem digit_facts {c : Char} (h : digitChar c = true) :
    c.toUpper = c ∧ c.isWhitespace = false ∧
    c ≠ 'K' ∧ c ≠ 'M' ∧ c ≠ 'B' := by
  have hb : 48 ≤ c.toNat ∧ c.toNat ≤ 57 := by
    simpa [digitChar, Bool.and_eq_true, decide_eq_true_eq] using h
  have hK : ('K' : Char).toNat = 75 := by decide
  have hM : ('M' : Char).toNat = 77 := by decide
  have hB : ('B' : Char).toNat = 66 := by decide
  exact ⟨toUpper_eq_self (by omega), not_whitespace (by omega) (by omega),
    ne_of_toNat_ne (by omega), ne_of_toNat_ne (by omega),
    ne_of_toNat_ne (by omega)⟩

/-- Mapping a pointwise-identity function is the identity. -/
theorem map_id_chars {f : Char → Char} :
    ∀ l : List Char, (∀ c ∈ l, f c = c) → l.map f = l := by
  intro l
  induction l with
  | nil => intro _; rfl
  | cons a as ih =>
    intro h
    simp only [List.map_cons, h a (List.mem_cons_self a as),
      ih (fun x hx => h x (List.mem_cons_of_mem a hx))]

/-- dropWhile does nothing on a list with no satisfying head. -/
theorem dropWhile_none {p : Char → Bool} :
    ∀ l : List Char, (∀ c ∈ l, p c = false) → l.dropWhile p = l := by
  intro l h
  cases l with
  | nil => rfl
  | cons a as => simp [List.dropWhile_cons, h a (List.mem_cons_self a as)]

/-- strip() of a string without whitespace is the identity. -/
theorem stripChars_eq_self {l : List Char}
    (h : ∀ c ∈ l, c.isWhitespace = false) : stripChars l = l := by
  unfold stripChars
  rw [dropWhile_none l h,
    dropWhile_none l.reverse (fun c hc => h c (List.mem_reverse.mp hc)),
    List.reverse_reverse]

/-- takeWhile over an all-true prefix stops at the first failure. -/
theorem takeWhile_append_stop {p : Char → Bool} :
    ∀ (l1 : List Char) (c : Char) (l2 : List Char),
      (∀ a ∈ l1, p a = true) → p c = false →
      (l1 ++ c :: l2).takeWhile p = l1 := by
  intro l1
  induction l1 with
  | nil => intro c l2 _ hc; simp [List.takeWhile_cons, hc]
  | cons a as ih =>
    intro c l2 h hc
    simp only [List.cons_append, List.takeWhile_cons,
      h a (List.mem_cons_self a as), if_true]
    rw [ih c l2 (fun x hx => h x (List.mem_cons_of_mem a hx)) hc]

/-- dropWhile over an all-true prefix drops exactly that prefix. -/
theorem dropWhile_append_stop {p : Char → Bool} :
    ∀ (l1 : List Char) (c : Char) (l2 : List Char),
      (∀ a ∈ l1, p a = true) → p c = false →
      (l1 ++ c :: l2).dropWhile p = c :: l2 := by
  intro l1
  induction l1 with
  | nil => intro c l2 _ hc; simp [List.dropWhile_cons, hc]
  | cons a as ih =>
    intro c l2 h hc
    simp only [List.cons_append, List.dropWhile_cons,
      h a (List.mem_cons_self a as), if_true]
    exact ih c l2 (fun x hx => h x (List.mem_cons_of_mem a hx)) hc

/-- takeWhile of an all-true list is the list. -/
theorem takeWhile_all {p : Char → Bool} :
    ∀ l : List Char, (∀ a ∈ l, p a = true) → l.takeWhile p = l := by
  intro l
  induction l with
  | nil => intro _; rfl
  | cons a as ih =>
    intro h
    simp only [List.takeWhile_cons, h a (List.mem_cons_self a as), if_true]
    rw [ih (fun x hx => h x (List.mem_cons_of_mem a hx))]

/-- dropWhile of an all-true list is empty. -/
theorem dropWhile_all {p : Char → Bool} :
    ∀ l : List Char, (∀ a ∈ l, p a = true) → l.dropWhile p = [] := by
  intro l
  induction l with
  | nil => intro _; rfl
  | cons a as ih =>
    intro h
    simp only [List.dropWhile_cons, h a (List.mem_cons_self a as), if_true]
    exact ih (fun x hx => h x (List.mem_cons_of_mem a hx))

/-- A membership makes Python's in operator true. -/
theorem contains_of_mem {l : List Char} {c : Char} (h : c ∈ l) :
    l.contains c = true := by
  simpa [List.contains] using List.elem_iff.mpr h

/-- With no member equal to c, Python's in operator is false. -/
theorem contains_none {l : List Char} {c : Char} (h : ∀ a ∈ l, a ≠ c) :
    l.contains c = false := by
  cases hc : l.contains c
  · rfl
  · have hm : c ∈ l := List.elem_iff.mp (by simpa [List.contains] using hc)
    exact absurd rfl (h c hm)

/-- Removing a letter no list member equals is the identity. -/
theorem filter_bne_eq_self {l : List Char} {k : Char}
    (h : ∀ a ∈ l, a ≠ k) : l.filter (fun c => c != k) = l :=
  List.filter_eq_self.mpr (fun a ha => by simpa [bne_iff_ne] using h a ha)

/-- A nonempty list is not isEmpty. -/
theorem isEmpty_false_of_ne {l : List Char} (h : l ≠ []) :
    l.isEmpty = false := by
  cases l with
  | nil => exact absurd rfl h
  | cons a as => rfl

/-- float() on a plain digit run. -/
theorem parseDecimal_int (ds : List Char) (hne : ds ≠ [])
    (hd : ∀ c ∈ ds, digitChar c = true) :
    parseDecimal ds = some (natOfDigits ds, 0) := by
  simp only [parseDecimal]
  rw [takeWhile_all ds hd, dropWhile_all ds hd]
  simp [isEmpty_false_of_ne hne]

/-- float() on digits.digits. -/
theorem parseDecimal_frac (ds fs : List Char) (hne : ds ≠ [])
    (hd : ∀ c ∈ ds, digitChar c = true) (hf : ∀ c ∈ fs, digitChar c = true) :
    parseDecimal (ds ++ '.' :: fs)
      = some (natOfDigits ds * 10 ^ fs.length + natOfDigits fs, fs.length) := by
  simp only [parseDecimal]
  rw [takeWhile_append_stop ds '.' fs hd (by decide),
    dropWhile_append_stop ds '.' fs hd (by decide)]
  simp [List.all_eq_true.mpr hf, isEmpty_false_of_ne hne]

set_option exponentiation.threshold 1200 in
/-- C5 counterexample: parse_count deletes the suffix letter wherever
it occurs and parses the whole remainder ("1K2" yields 12000 — neither
1000, the leading decimal number 1 times 1e3, nor None), and the
multiply happens in double arithmetic ("8.165K" yields 8164, not the
8165 that 1e3 times the leading decimal number would give:
float('8.165') falls just below 8.165, the rounded product falls just
below 8165, and int() truncates). -/
theorem parse_count_not_leading :
    parse_count "1K2" = some 12000 ∧
    some (12000 : Nat) ≠ some 1000 ∧ (some 12000 : Option Nat) ≠ none ∧
    parse_count "8.165K" = some 8164 ∧
    some (8164 : Nat) ≠ some 8165 :=
  ⟨by decide, by decide, by decide, by decide, by decide⟩

set_option exponentiation.threshold 1200 in
/-- C5 amended: parse_count tests for the letters K, M, B (in that
order, anywhere in the uppercased stripped string), deletes every
occurrence of the found letter, converts the remaining string with
float() and applies the multiplier (1e3/1e6/1e9) in binary64 double
arithmetic, truncating like int().  The spec's examples hold
("1.2K" = 1200, "5M" = 5000000, "3B" = 3000000000); plain numerals
round exactly as float() does (2^53 + 1 rounds half-to-even down to
2^53, a 20-digit numeral rounds to the nearest double); the double
rounding can fall below the exact decimal product ("8.165K" = 8164,
"0.0015K" = 1); int() truncates toward zero ("2.5" = 2); and
unparseable strings — including a remainder that still holds another
magnitude letter — give None rather than raising. -/
theorem parse_count_float_semantics :
    parse_count "1.2K" = some 1200 ∧
    parse_count "5M" = some 5000000 ∧
    parse_count "3B" = some 3000000000 ∧
    parse_count "8.165K" = some 8164 ∧
    parse_count "2.675K" = some 2675 ∧
    parse_count "0.0015K" = some 1 ∧
    parse_count "2.5" = some 2 ∧
    parse_count "9007199254740993" = some 9007199254740992 ∧
    parse_count "12345678901234567890" = some 12345678901234567168 ∧
    parse_count "123.456789M" = some 123456789 ∧
    parse_count "hello" = none ∧
    parse_count "" = none ∧
    parse_count "x.y" = none ∧
    parse_count "1.2.3" = none ∧
    parse_count "1M2K" = none := by
  refine ⟨by decide, by decide, by decide, by decide, by decide, by decide,
    by decide, by decide, by decide, by decide, by decide, by decide,
    by decide, by decide, by decide⟩

/-- Word characters live below code point 123. -/
theorem wordChar_toNat_lt {c : Char} (h : wordChar c = true) :
    c.toNat < 123 := by
  simp only [wordChar, Bool.or_eq_true, Bool.and_eq_true, decide_eq_true_eq,
    beq_iff_eq] at h
  omega

/-- Enumerated facts about lowering word characters. -/
theorem wordChar_enum : ∀ n : Fin 123,
    wordChar (Char.ofNat n.1) = true →
      wordChar ((Char.ofNat n.1).toLower) = true ∧
      ((Char.ofNat n.1).toLower).toLower = (Char.ofNat n.1).toLower := by
  decide

/-- Lowering a word character yields a toLower-fixed word character. -/
theorem wordChar_toLower {c : Char} (h : wordChar c = true) :
    wordChar c.toLower = true ∧ c.toLower.toLower = c.toLower := by
  have hlt := wordChar_toNat_lt h
  have := wordChar_enum ⟨c.toNat, hlt⟩
    (by simpa [Char.ofNat_toNat] using h)
  simpa [Char.ofNat_toNat] using this

/-- lexLe is transitive. -/
theorem lexLe_trans : ∀ a b c : List Char,
    lexLe a b = true → lexLe b c = true → lexLe a c = true := by
  intro a
  induction a with
  | nil => intro b c _ _; rfl
  | cons x xs ih =>
    intro b c hab hbc
    cases b with
    | nil => simp [lexLe] at hab
    | cons y ys =>
      cases c with
      | nil => simp [lexLe] at hbc
      | cons z zs =>
        simp only [lexLe, Bool.or_eq_true, Bool.and_eq_true,
          decide_eq_true_eq, beq_iff_eq] at hab hbc ⊢
        rcases hab with h1 | ⟨h1, h2⟩ <;> rcases hbc with h3 | ⟨h3, h4⟩
        · exact Or.inl (by omega)
        · exact Or.inl (by omega)
        · exact Or.inl (by omega)
        · exact Or.inr ⟨by omega, ih ys zs h2 h4⟩

/-- lexLe is total. -/
theorem lexLe_total : ∀ a b : List Char,
    lexLe a b = true ∨ lexLe b a = true := by
  intro a
  induction a with
  | nil => intro b; exact Or.inl rfl
  | cons x xs ih =>
    intro b
    cases b with
    | nil => exact Or.inr rfl
    | cons y ys =>
      by_cases hxy : x.toNat = y.toNat
      · rcases ih ys with h | h
        · exact Or.inl (by
            simp only [lexLe, Bool.or_eq_true, Bool.and_eq_true,
              decide_eq_true_eq, beq_iff_eq]
            exact Or.inr ⟨hxy, h⟩)
        · exact Or.inr (by
            simp only [lexLe, Bool.or_eq_true, Bool.and_eq_true,
              decide_eq_true_eq, beq_iff_eq]
            exact Or.inr ⟨hxy.symm, h⟩)
      · rcases Nat.lt_or_ge x.toNat y.toNat with h | h
        · exact Or.inl (by
            simp only [lexLe, Bool.or_eq_true, Bool.and_eq_true,
              decide_eq_true_eq, beq_iff_eq]
            exact Or.inl h)
        · exact Or.inr (by
            simp only [lexLe, Bool.or_eq_true, Bool.and_eq_true,
              decide_eq_true_eq, beq_iff_eq]
            exact Or.inl (by omega))

/-- hashtagLe transitivity, in the form mergeSort wants. -/
theorem hashtagLe_trans (a b c : String) :
    hashtagLe a b → hashtagLe b c → hashtagLe a c := by
  intro h1 h2
  exact lexLe_trans a.data b.data c.data h1 h2

/-- hashtagLe totality, in the form mergeSort wants. -/
theorem hashtagLe_total (a b : String) : hashtagLe a b || hashtagLe b a := by
  rcases lexLe_total a.data b.data with h | h <;>
    simp [hashtagLe, h]

/-- Every captured run is a non-empty run of word characters. -/
theorem scanTags_runs : ∀ (l : List Char) (run : List Char),
    run ∈ scanTags l → run ≠ [] ∧ ∀ c ∈ run, wordChar c = true := by
  intro l
  induction l using scanTags.induct with
  | case1 => intro run h; simp [scanTags] at h
  | case2 rest run0 hempty ih =>
    intro run h
    have hrun : run0 = rest.takeWhile wordChar := rfl
    rw [hrun] at hempty
    rw [scanTags] at h
    simp only [hempty, if_true] at h
    exact ih run h
  | case3 rest run0 hempty ih =>
    intro run h
    have hrun : run0 = rest.takeWhile wordChar := rfl
    rw [hrun] at hempty ih
    rw [scanTags] at h
    simp only [Bool.not_eq_true] at hempty
    simp only [hempty, Bool.false_eq_true, if_false] at h
    rcases List.mem_cons.mp h with rfl | h2
    · refine ⟨fun hr => by simp [hr] at hempty, ?_⟩
      intro c hc
      exact List.mem_takeWhile_imp hc
    · exact ih run h2
  | case4 head rest hne ih =>
    intro run h
    simp only [scanTags] at h
    exact ih run h

/-- Every tag _extract_hashtags_from_text returns is a non-empty
lowercase word-character run. -/
theorem extract_tags_props {o : Option String} {tag : String}
    (h : tag ∈ extract_hashtags_from_text o) :
    tag ≠ "" ∧ (∀ c ∈ tag.data, wordChar c = true) ∧
    lowerString tag = tag := by
  cases o with
  | none => simp [extract_hashtags_from_text] at h
  | some t =>
    by_cases ht : t = ""
    · simp [extract_hashtags_from_text, ht] at h
    · simp only [extract_hashtags_from_text, if_neg ht] at h
      have h2 := List.mem_dedup.mp h
      obtain ⟨run, hrun, rfl⟩ := List.mem_map.mp h2
      obtain ⟨hne, hword⟩ := scanTags_runs t.data run hrun
      refine ⟨?_, ?_, ?_⟩
      · intro he
        have hd : run.map Char.toLower = [] := congrArg String.data he
        exact hne (List.map_eq_nil_iff.mp hd)
      · intro c hc
        obtain ⟨c0, hc0, rfl⟩ := List.mem_map.mp hc
        exact (wordChar_toLower (hword c0 hc0)).1
      · show String.mk ((run.map Char.toLower).map Char.toLower)
            = String.mk (run.map Char.toLower)
        rw [List.map_map]
        exact congrArg String.mk (List.map_congr_left (fun c hc =>
          (wordChar_toLower (hword c hc)).2))

/-- collectTags output is sorted, duplicate-free, and made of
non-empty lowercase word-character tags. -/
theorem collectTags_props (texts : List (Option String)) :
    (collectTags texts).Pairwise (fun a b => hashtagLe a b = true) ∧
    (collectTags texts).Nodup ∧
    ∀ tag ∈ collectTags texts,
      tag ≠ "" ∧ (∀ c ∈ tag.data, wordChar c = true) ∧
      lowerString tag = tag := by
  refine ⟨?_, ?_, ?_⟩
  · exact List.sorted_mergeSort hashtagLe_trans hashtagLe_total _
  · exact ((List.mergeSort_perm _ hashtagLe).symm).nodup
      (List.nodup_dedup _)
  · intro tag htag
    have h1 : tag ∈ (texts.flatMap extract_hashtags_from_text).dedup :=
      List.mem_mergeSort.mp htag
    obtain ⟨o, _, hmem⟩ := List.mem_flatMap.mp (List.mem_dedup.mp h1)
    exact extract_tags_props hmem

/-- Every record's hashtag list is empty or a collectTags value. -/
theorem extract_metadata_hashtags (url : String) (env : ExtractEnv)
    (mr : Nat) :
    (extract_metadata url env mr).hashtags = [] ∨
    ∃ ts, (extract_metadata url env mr).hashtags = collectTags ts := by
  unfold extract_metadata extract_metadata_run
  by_cases hia : env.initAlive
  · rw [if_pos hia]
    cases extract_loop env.att mr 0 none with
    | some le => exact Or.inl rfl
    | none =>
      unfold extract_body
      by_cases hb : env.body.bodyAlive
      · rw [if_pos hb]; exact Or.inr ⟨_, rfl⟩
      · rw [if_neg hb]; exact Or.inr ⟨[], rfl⟩
  · rw [if_neg hia]
    cases env.initCreate with
    | err e => exact Or.inl rfl
    | ok =>
      cases extract_loop env.att mr 0 none with
      | some le => exact Or.inl rfl
      | none =>
        unfold extract_body
        by_cases hb : env.body.bodyAlive
        · rw [if_pos hb]; exact Or.inr ⟨_, rfl⟩
        · rw [if_neg hb]; exact Or.inr ⟨[], rfl⟩

/-- scanTags recovers the tags of a rendered '#tag ' concatenation. -/
theorem scanTags_render :
    ∀ ts : List (List Char),
      (∀ t ∈ ts, t ≠ [] ∧ ∀ c ∈ t, wordChar c = true) →
      scanTags (ts.flatMap (fun t => ('#' :: t) ++ [' '])) = ts := by
  intro ts
  induction ts with
  | nil => intro _; simp only [List.flatMap_nil, scanTags]
  | cons t rest ih =>
    intro h
    obtain ⟨hne, hword⟩ := h t (List.mem_cons_self t rest)
    have hrest := fun x hx => h x (List.mem_cons_of_mem t hx)
    have hshape :
        (t :: rest).flatMap (fun t => ('#' :: t) ++ [' '])
          = '#' :: (t ++ ' ' ::
              rest.flatMap (fun t => ('#' :: t) ++ [' '])) := by
      simp [List.flatMap_cons, List.append_assoc]
    rw [hshape, scanTags]
    have htw :
        (t ++ ' ' :: rest.flatMap
            (fun t => ('#' :: t) ++ [' '])).takeWhile wordChar = t :=
      takeWhile_append_stop t ' ' _ hword (by decide)
    simp only [htw, isEmpty_false_of_ne hne, Bool.false_eq_true, if_false]
    rw [List.drop_left]
    have hsp : scanTags (' ' :: rest.flatMap
        (fun t => ('#' :: t) ++ [' ']))
        = scanTags (rest.flatMap (fun t => ('#' :: t) ++ [' '])) := by
      simp [scanTags]
    rw [hsp, ih hrest]

/-- The character list of a rendered tag text. -/
theorem renderTags_data (ts : List String) :
    (renderTags ts).data
      = (ts.map String.data).flatMap (fun l => ('#' :: l) ++ [' ']) := by
  show ts.flatMap (fun t => '#' :: t.data ++ [' ']) = _
  rw [List.flatMap_map]

/-- Re-extracting from the rendering of an already-collected tag list
reproduces it exactly. -/
theorem collectTags_idem (texts : List (Option String)) :
    collectTags [some (renderTags (collectTags texts))]
      = collectTags texts := by
  obtain ⟨hpair, hnodup, htags⟩ := collectTags_props texts
  by_cases hX : collectTags texts = []
  · rw [hX]
    show collectTags [some (renderTags [])] = []
    have h0 : renderTags [] = "" := rfl
    rw [h0]
    simp [collectTags, extract_hashtags_from_text]
  · have hdata : (renderTags (collectTags texts)).data
        = ((collectTags texts).map String.data).flatMap
            (fun l => ('#' :: l) ++ [' ']) := renderTags_data _
    have hrne : renderTags (collectTags texts) ≠ "" := by
      intro he
      cases hXc : collectTags texts with
      | nil => exact hX hXc
      | cons t ts =>
        have hd : (renderTags (collectTags texts)).data = [] :=
          congrArg String.data he
        rw [hdata, hXc] at hd
        simp [List.flatMap_cons] at hd
    have hprops : ∀ l ∈ (collectTags texts).map String.data,
        l ≠ [] ∧ ∀ c ∈ l, wordChar c = true := by
      intro l hl
      obtain ⟨tag, htg, rfl⟩ := List.mem_map.mp hl
      obtain ⟨h1, h2, _⟩ := htags tag htg
      refine ⟨fun hd => h1 ?_, h2⟩
      have : tag = String.mk tag.data := rfl
      rw [this, hd]
    have hscan : scanTags (renderTags (collectTags texts)).data
        = (collectTags texts).map String.data := by
      rw [hdata]
      exact scanTags_render _ hprops
    have hmap : ((collectTags texts).map String.data).map
        (fun r => String.mk (r.map Char.toLower)) = collectTags texts := by
      rw [List.map_map]
      have hcg : ∀ tag ∈ collectTags texts,
          ((fun r => String.mk (r.map Char.toLower)) ∘ String.data) tag
            = id tag := by
        intro tag htg
        exact (htags tag htg).2.2
      rw [List.map_congr_left hcg, List.map_id]
    have hextract :
        extract_hashtags_from_text (some (renderTags (collectTags texts)))
          = collectTags texts := by
      simp only [extract_hashtags_from_text, if_neg hrne]
      rw [hscan, hmap, List.Nodup.dedup hnodup]
    show List.mergeSort
        (([some (renderTags (collectTags texts))].flatMap
          extract_hashtags_from_text).dedup) hashtagLe = _
    rw [show [some (renderTags (collectTags texts))].flatMap
          extract_hashtags_from_text
        = extract_hashtags_from_text
            (some (renderTags (collectTags texts))) from by
      simp [List.flatMap_cons]]
    rw [hextract, List.Nodup.dedup hnodup,
      List.mergeSort_of_sorted hpair]

unseal List.merge List.mergeSort scanTags in
/-- C6: every record's hashtag list is sorted under the lexicographic
order, duplicate-free, and each tag is a non-empty lowercase
word-character run with no leading marker; the spec's example text
"Great day #Fun #fun #FUN!" yields exactly ["fun"], both through a
single extraction and through the full accumulation; and re-extracting
from an already-normalised rendering of any collected tag list changes
nothing. -/
theorem hashtags_normalized :
    (∀ (url : String) (env : ExtractEnv) (mr : Nat),
      (extract_metadata url env mr).hashtags.Pairwise
          (fun a b => hashtagLe a b = true) ∧
      (extract_metadata url env mr).hashtags.Nodup ∧
      ∀ tag ∈ (extract_metadata url env mr).hashtags,
        tag ≠ "" ∧ (∀ c ∈ tag.data, wordChar c = true) ∧
        lowerString tag = tag) ∧
    extract_hashtags_from_text (some "Great day #Fun #fun #FUN!")
      = ["fun"] ∧
    collectTags [some "Great day #Fun #fun #FUN!"] = ["fun"] ∧
    (∀ texts : List (Option String),
      collectTags [some (renderTags (collectTags texts))]
        = collectTags texts) := by
  refine ⟨?_, by decide, by decide, collectTags_idem⟩
  intro url env mr
  rcases extract_metadata_hashtags url env mr with h | ⟨ts, h⟩
  · rw [h]
    exact ⟨List.Pairwise.nil, List.nodup_nil,
      fun tag htag => absurd htag (List.not_mem_nil tag)⟩
  · rw [h]
    exact collectTags_props ts

unseal List.merge List.mergeSort scanTags in
theorem hashtags_normalized_witness :
    "fun" ≠ "" ∧ (∀ c ∈ "fun".data, wordChar c = true) ∧
    lowerString "fun" = "fun" :=
  (hashtags_normalized.1 "u" sampleEnv 2).2.2 "fun" (by decide)

/-- C7: finalizing a document that contains one errored record does
re-save the file, but what is saved is save_results' fresh dict of
total_videos, extracted_at and videos: it carries neither finalized_at
nor the recomputed summary counters, even though the never-persisted
in-memory dict of lines 1190-1198 has all three. -/
theorem finalize_not_persisted :
    (finalize_and_retry_errors sampleFS "out.json" sampleRetry "t1").1 "out.json"
      = some ⟨1, some "t1", none, none, none, [{ url := "u" }]⟩ ∧
    (finalize_and_retry_errors sampleFS "out.json" sampleRetry "t1").2 = ⟨1, 1, 0⟩ ∧
    (finalizeInMemoryDoc sampleDoc [{ url := "u" }] "now").finalized_at = some "now" ∧
    (finalizeInMemoryDoc sampleDoc [{ url := "u" }] "now").successful_extractions = some 1 ∧
    (finalizeInMemoryDoc sampleDoc [{ url := "u" }] "now").failed_extractions = some 0 := by
  refine ⟨by decide, by decide, by decide, by decide, by decide⟩

end TikTok
